import Mathlib

/-!
# Verification of the netdeck server core

A shallow embedding, in Lean 4, of the state-manipulating core of the
netdeck card-game server (Go source: `server.go`, `gamestate.go`,
`playerstate.go`, `protocol.go`, `serialisation.go`).  Machine integers
are modelled as `Nat` with explicit `% 2^w` at the places where the Go
code performs a narrowing conversion; Go slices become `List`; a Go
`panic` becomes an explicit `panicked` result constructor; the
game-scoped `rand.Rand` becomes an explicit stream of caller-supplied
values (`rv`, reduced `% n` exactly where the Go code draws `Intn(n)`).
-/

namespace Netdeck

/-! ## Protocol constants (protocol.go) -/

def PROTOCOL_MAGIC_NUMBER : Nat := 0x342F
def PROTOCOL_ID : Nat := 0x0001

def CMD_UNKNOWN : Nat := 0
def CMD_KEEPALIVE : Nat := 1
def CMD_HANDSHAKE : Nat := 2
def CMD_HANDSHAKE_RESPONSE : Nat := 3
def CMD_DISCONNECT : Nat := 4
def CMD_INFO_PLAYERS : Nat := 5
def CMD_INFO_DECKS : Nat := 6
def CMD_INFO_CARDS : Nat := 7
def CMD_INFO_PLAYERS_RESPONSE : Nat := 8
def CMD_INFO_DECKS_RESPONSE : Nat := 9
def CMD_INFO_CARDS_RESPONSE : Nat := 10
def CMD_CARD_DRAW : Nat := 11
def CMD_CARD_SHOW : Nat := 12
def CMD_CARD_PUTBACK : Nat := 13
def CMD_CARD_DISCARD : Nat := 14
def CMD_CARD_GIVE : Nat := 15
def CMD_DECK_PEEK : Nat := 16
def CMD_DECK_SHUFFLE : Nat := 17
def CMD_GAME_CREATE : Nat := 18
def CMD_GAME_JOIN : Nat := 19
def CMD_GAME_LEAVE : Nat := 20
def CMD_NOTIFY_PLAYER_ACTION : Nat := 21
def CMD_NOTIFY_GAME_JOINED : Nat := 22
def CMD_NOTIFY_SERVER_SHUTDOWN : Nat := 23
def CMD_NOTIFY_INPUT_ERROR : Nat := 24
def NUM_CMDS : Nat := 25

def ERROR_INVALID_CMD_ID : Nat := 0
def ERROR_INVALID_GAME_ID : Nat := 1
def ERROR_INVALID_PLAYER_ID : Nat := 2
def ERROR_INVALID_DECK_ID : Nat := 3
def ERROR_INVALID_CARD_ID : Nat := 4
def ERROR_INVALID_PLAYER_NAME : Nat := 5
def ERROR_INVALID_DATA : Nat := 6
def ERROR_SERVER_FULL : Nat := 7

def PLAYER_ID_ALL : Nat := 2 ^ 64 - 1
def PLAYER_ID_ANY : Nat := 2 ^ 64 - 2
def PLAYER_ID_NONE : Nat := 2 ^ 64 - 3

def DECK_ID_ALL : Nat := 2 ^ 16 - 1
def DECK_ID_ANY : Nat := 2 ^ 16 - 2
def DECK_ID_NONE : Nat := 2 ^ 16 - 3

def CARD_ID_ALL : Nat := 2 ^ 16 - 1
def CARD_ID_ANY : Nat := 2 ^ 16 - 2
def CARD_ID_NONE : Nat := 2 ^ 16 - 3

def MaxPlayerNameLength : Nat := 64

/-! ## Players and games (playerstate.go, gamestate.go) -/

/-- `PlayerState` (playerstate.go): id, display name, and the hand
(a slice of card ids).  The socket field is not part of the state model. -/
structure Player where
  Id : Nat
  Name : String
  Hand : List Nat
  deriving Repr, DecidableEq, Inhabited

/-- `GameState` (gamestate.go): the immutable spec (list of card display
names), the deck (card ids, top of deck = last element), the member list,
and the server-assigned game id.  The mutex and rng fields are modelled
away (rng draws are explicit parameters of each operation). -/
structure Game where
  spec : List String
  Deck : List Nat
  Players : List Player
  Id : Nat
  deriving Repr, DecidableEq, Inhabited

/-- Outcome of a resolve helper: a found index, the `-1` not-found result,
or a Go `panic` (raised by `rand.Intn(n)` when `n <= 0`). -/
inductive FindResult where
  | found (i : Nat)
  | notFound
  | panicked
  deriving Repr, DecidableEq

/-- The linear scan shared by `GameState.FindPlayer` and
`GameState.FindCard`: first index (counting from `i`) whose element
satisfies `p`, or the not-found result. -/
def scanFrom (p : α → Bool) : List α → Nat → FindResult
  | [], _ => .notFound
  | a :: rest, i => if p a then .found i else scanFrom p rest (i + 1)

/-- `GameState.FindCard` (gamestate.go): for `CARD_ID_ANY` the Go code
calls `gs.rng.Intn(len(player.Hand))`, which panics when the hand is
empty; otherwise it returns a uniformly random index, modelled as the
caller-supplied `rv` reduced mod the hand size.  Any other id is resolved
by linear scan.  (The `player == nil` guard in the Go code is dead on
every call site and is not modelled.) -/
def FindCardR (hand : List Nat) (cardId : Nat) (rv : Nat) : FindResult :=
  if cardId = CARD_ID_ANY then
    if hand.length = 0 then .panicked else .found (rv % hand.length)
  else
    scanFrom (fun cid => cid = cardId) hand 0

/-- `GameState.FindPlayer` (gamestate.go): for `PLAYER_ID_ANY` the Go code
calls `gs.rng.Intn(len(gs.Players))`, which panics when the player list is
empty; otherwise a uniformly random index (`rv % n`).  Any other id is
resolved by linear scan over the members. -/
def FindPlayerR (players : List Player) (playerId : Nat) (rv : Nat) : FindResult :=
  if playerId = PLAYER_ID_ANY then
    if players.length = 0 then .panicked else .found (rv % players.length)
  else
    scanFrom (fun q => q.Id = playerId) players 0

/-- A successful scan yields the index of a matching element. -/
theorem scanFrom_found (p : α → Bool) (d : α) :
    ∀ (l : List α) (i : Nat),
      scanFrom p l i = .notFound ∨
      ∃ j, scanFrom p l i = .found (i + j) ∧ j < l.length ∧ p (l.getD j d) = true := by
  intro l
  induction l with
  | nil => intro i; exact Or.inl rfl
  | cons a rest ih =>
    intro i
    by_cases h : p a
    · exact Or.inr ⟨0, by simp [scanFrom, h], by simp, by simpa using h⟩
    · rcases ih (i + 1) with h' | ⟨j, hj, hjl, hpj⟩
      · exact Or.inl (by simp [scanFrom, h, h'])
      · refine Or.inr ⟨j + 1, ?_, by simpa using hjl, by simpa using hpj⟩
        simp only [scanFrom, h, if_false]
        have harith : i + (j + 1) = (i + 1) + j := by omega
        rw [harith]
        exact hj

/-- C8 counterexample: resolving `CARD_ID_ANY` against an empty hand does
fault — `FindCard` reaches `rand.Intn(0)`, which panics — so the helper is
not total: the result is neither a valid index nor the `-1` not-found
value.  This refutes the claim that the resolve helpers never fault. -/
theorem C8_counterexample :
    FindCardR [] CARD_ID_ANY 0 = .panicked ∧
    (∀ i, FindCardR [] CARD_ID_ANY 0 ≠ .found i) ∧
    FindCardR [] CARD_ID_ANY 0 ≠ .notFound := by
  refine ⟨rfl, fun i h => ?_, fun h => ?_⟩ <;> simp [FindCardR, CARD_ID_ANY] at h

/-- C8 (amended): the resolve helpers `FindPlayer` and `FindCard` are total
except on the `ANY`-against-an-empty-list path.  For a non-`ANY` id the
scan returns either the index of a matching element or not-found (`-1`);
for `ANY` against a non-empty list they return a valid uniformly sampled
index; for `ANY` against an empty list they panic (Go `rand.Intn(0)`). -/
theorem C8_amended :
    (∀ (hand : List Nat) (cardId rv : Nat), cardId ≠ CARD_ID_ANY →
      FindCardR hand cardId rv = .notFound ∨
      ∃ i, FindCardR hand cardId rv = .found i ∧ i < hand.length ∧
        hand.getD i 0 = cardId) ∧
    (∀ (hand : List Nat) (rv : Nat), hand ≠ [] →
      ∃ i, FindCardR hand CARD_ID_ANY rv = .found i ∧ i < hand.length) ∧
    (∀ rv, FindCardR [] CARD_ID_ANY rv = .panicked) ∧
    (∀ (players : List Player) (playerId rv : Nat), playerId ≠ PLAYER_ID_ANY →
      FindPlayerR players playerId rv = .notFound ∨
      ∃ i, FindPlayerR players playerId rv = .found i ∧ i < players.length ∧
        (players.getD i default).Id = playerId) ∧
    (∀ (players : List Player) (rv : Nat), players ≠ [] →
      ∃ i, FindPlayerR players PLAYER_ID_ANY rv = .found i ∧ i < players.length) ∧
    (∀ rv, FindPlayerR [] PLAYER_ID_ANY rv = .panicked) := by
  refine ⟨?_, ?_, ?_, ?_, ?_, ?_⟩
  · intro hand cardId rv hne
    simp only [FindCardR, hne, if_false]
    rcases scanFrom_found (fun cid => cid = cardId) 0 hand 0 with h | ⟨j, hj, hjl, hpj⟩
    · exact Or.inl h
    · exact Or.inr ⟨j, by simpa using hj, hjl, by simpa using hpj⟩
  · intro hand rv hne
    have hlen : hand.length ≠ 0 := by simpa using hne
    exact ⟨rv % hand.length, by simp [FindCardR, hlen], Nat.mod_lt _ (Nat.pos_of_ne_zero hlen)⟩
  · intro rv; rfl
  · intro players playerId rv hne
    simp only [FindPlayerR, hne, if_false]
    rcases scanFrom_found (fun q => q.Id = playerId) default players 0 with h | ⟨j, hj, hjl, hpj⟩
    · exact Or.inl h
    · exact Or.inr ⟨j, by simpa using hj, hjl, by simpa using hpj⟩
  · intro players rv hne
    have hlen : players.length ≠ 0 := by simpa using hne
    exact ⟨rv % players.length, by simp [FindPlayerR, hlen],
      Nat.mod_lt _ (Nat.pos_of_ne_zero hlen)⟩
  · intro rv; rfl

/-- Witness for C8 (amended), at concrete inputs. -/
theorem C8_amended_witness :
    ((3 : Nat) ≠ CARD_ID_ANY ∧
      (FindCardR [7, 3] 3 0 = .notFound ∨
        ∃ i, FindCardR [7, 3] 3 0 = .found i ∧ i < 2 ∧ [7, 3].getD i 0 = 3)) ∧
    ([7, 3] ≠ ([] : List Nat) ∧
      ∃ i, FindCardR [7, 3] CARD_ID_ANY 5 = .found i ∧ i < 2) := by
  constructor
  · exact ⟨by decide, C8_amended.1 [7, 3] 3 0 (by decide)⟩
  · exact ⟨by decide, C8_amended.2.1 [7, 3] 5 (by decide)⟩

/-! ## Slice helpers (server.go, playerstate.go) -/

/-- `PlayerState.Discard` / `GameState.RemovePlayer` swap-remove
(playerstate.go, gamestate.go): overwrite slot `i` with the last element,
then truncate by one (`l[i] = l[len(l)-1]; l = l[:len(l)-1]`).  Callers
only invoke it with `i < l.length` (on an empty slice the Go code would
panic on the `len(l)-1` index). -/
def swapRemove [Inhabited α] (l : List α) (i : Nat) : List α :=
  (l.set i (l.getD (l.length - 1) default)).take (l.length - 1)

/-- `sliceInsert` (server.go): append a zero, shift the tail right by one,
write `val` at `index`.  For `index ≤ l.length` this inserts `val` at
position `index`. -/
def sliceInsert (l : List Nat) (val : Nat) (index : Nat) : List Nat :=
  l.take index ++ val :: l.drop index

/-- `makeFilledIdSlice` (server.go). -/
def makeFilledIdSlice (n : Nat) (val : Nat) : List Nat :=
  List.replicate n val

/-- Mutation of one member's hand through the shared `*PlayerState`
pointer: replace the `i`-th entry's hand by `f` of it (out-of-range `i`
cannot occur on the call sites: the handler's player is a member). -/
def updatePlayerHand (ps : List Player) (i : Nat) (f : List Nat → List Nat) : List Player :=
  match ps.get? i with
  | some p => ps.set i { p with Hand := f p.Hand }
  | none => ps

/-! ## Fisher-Yates shuffle (gamestate.go / math/rand.Shuffle) -/

/-- Simultaneous swap `l[i], l[j] = l[j], l[i]`. -/
def swapIdx [Inhabited α] (l : List α) (i j : Nat) : List α :=
  (l.set i (l.getD j default)).set j (l.getD i default)

/-- The loop of `rand.Shuffle`: `for i := n-1; i > 0; i-- { j := Intn(i+1);
swap(i, j) }`, with the random draw for counter `i` modelled as
`jf i % (i+1)`. -/
def shuffleGo (jf : Nat → Nat) : Nat → List Nat → List Nat
  | 0, l => l
  | i + 1, l => shuffleGo jf i (swapIdx l (i + 1) (jf (i + 1) % (i + 2)))

/-- `GameState.ShuffleDeck` (gamestate.go): `rand.Shuffle` over the deck,
driven by the game rng (here the explicit stream `jf`). -/
def ShuffleDeck (jf : Nat → Nat) (l : List Nat) : List Nat :=
  shuffleGo jf (l.length - 1) l

/-! ## Notifications (gamestate.go) -/

/-- `NotifyPlayerActionCommand` as constructed by `NewPlayerActionNotify`. -/
structure Notify where
  playerId : Nat
  cmdId : Nat
  targetDeckId : Nat
  targetPlayerId : Nat
  targetCardIds : List Nat
  deriving Repr, DecidableEq

/-- `GameState.BroadcastNotification`: deliver to every member whose id is
neither the notification's source (`playerId`) nor its `targetPlayerId`.
Modelled as the ordered list of `(recipient id, notification)` pairs. -/
def broadcastMsgs (players : List Player) (n : Notify) : List (Nat × Notify) :=
  (players.filter (fun p => ¬(p.Id = n.playerId ∨ p.Id = n.targetPlayerId))).map
    (fun p => (p.Id, n))

/-- `GameState.SendNotificationToPlayer`: deliver to the first member whose
id equals `dest` (no delivery, and `ErrInvalidPlayerId`, otherwise). -/
def sendToPlayerMsgs (players : List Player) (n : Notify) (dest : Nat) : List (Nat × Notify) :=
  match players.find? (fun p => p.Id = dest) with
  | some p => [(p.Id, n)]
  | none => []

/-- `GameState.RemovePlayer` (gamestate.go): swap-remove the first member
whose id matches; no-op when absent. -/
def removeById (players : List Player) (pid : Nat) : List Player :=
  match scanFrom (fun q => q.Id = pid) players 0 with
  | .found i => swapRemove players i
  | _ => players

/-! ## The in-game command handlers (server.go, runServerPlayer) -/

/-- How a handler run ends: normally, with `sendInputError(code)` to the
caller, or with a Go panic. -/
inductive Outcome where
  | ok
  | err (code : Nat)
  | panicked
  deriving Repr, DecidableEq

/-- One mutating operation on a game.  `pIdx` is the position of the
session's player in the member list (the Go handler holds a direct
pointer); `rv`/`rv1`/`rv2` are the rng draws consumed by the resolve
helpers; `jf` is the rng stream consumed by a shuffle. -/
inductive GameOp where
  | draw (pIdx count : Nat) (faceUp : Bool) (deckId : Nat)
  | showCard (pIdx cardId playerId rv1 rv2 : Nat)
  | putback (pIdx cardId deckId cardsFromTop rv : Nat)
  | discard (pIdx cardId rv : Nat) (faceUp : Bool)
  | give (pIdx cardId playerId rv1 rv2 : Nat) (faceUp : Bool)
  | shuffle (pIdx deckId : Nat) (jf : Nat → Nat)
  | join (p : Player)
  | leave (pIdx : Nat)

/-- The state- and notification-semantics of the `runServerPlayer` in-game
command handlers (server.go), one case per `GameOp`.  The result is the
game after the handler (unchanged on every `sendInputError` path, exactly
as in the Go control flow), the outcome, and the ordered notification
deliveries. -/
def applyOp (g : Game) (op : GameOp) : Game × Outcome × List (Nat × Notify) :=
  match op with
  | .draw pIdx count faceUp deckId =>
    match g.Players.get? pIdx with
    | none => (g, .panicked, [])
    | some player =>
      let c := min count g.Deck.length
      let newCards := (g.Deck.drop (g.Deck.length - c)).reverse
      let deck' := g.Deck.take (g.Deck.length - c)
      let players' := updatePlayerHand g.Players pIdx (fun h => h ++ newCards)
      let g' := { g with Deck := deck', Players := players' }
      let publicCards := if faceUp then newCards else makeFilledIdSlice newCards.length CARD_ID_ANY
      let msgs :=
        broadcastMsgs players' ⟨player.Id, CMD_CARD_DRAW, deckId, PLAYER_ID_NONE, publicCards⟩ ++
        sendToPlayerMsgs players' ⟨player.Id, CMD_CARD_DRAW, deckId, player.Id, newCards⟩ player.Id
      (g', .ok, msgs)
  | .showCard pIdx cardId playerId rv1 rv2 =>
    match g.Players.get? pIdx with
    | none => (g, .panicked, [])
    | some player =>
      match FindCardR player.Hand cardId rv1 with
      | .panicked => (g, .panicked, [])
      | cRes =>
        match FindPlayerR g.Players playerId rv2 with
        | .panicked => (g, .panicked, [])
        | pRes =>
          if cRes = .notFound ∧ cardId ≠ CARD_ID_ALL then
            (g, .err ERROR_INVALID_CARD_ID, [])
          else if pRes = .notFound ∧ playerId ≠ PLAYER_ID_ANY ∧ playerId ≠ PLAYER_ID_ALL then
            (g, .err ERROR_INVALID_PLAYER_ID, [])
          else
            let visible : List Nat :=
              if cardId = CARD_ID_ALL then player.Hand
              else match cRes with
                | .found i => [player.Hand.getD i 0]
                | _ => []
            let notifyV : Notify := ⟨player.Id, CMD_CARD_SHOW, DECK_ID_NONE, playerId, visible⟩
            let msgsSrc := sendToPlayerMsgs g.Players notifyV player.Id
            if playerId = PLAYER_ID_ALL then
              (g, .ok, msgsSrc ++ broadcastMsgs g.Players notifyV)
            else
              match pRes with
              | .found ti =>
                let targetId := (g.Players.getD ti default).Id
                let notifyH : Notify :=
                  ⟨player.Id, CMD_CARD_SHOW, DECK_ID_NONE, targetId,
                    makeFilledIdSlice visible.length CARD_ID_ANY⟩
                (g, .ok, msgsSrc ++ broadcastMsgs g.Players notifyH)
              | _ => (g, .panicked, msgsSrc)
  | .putback pIdx cardId deckId cardsFromTop rv =>
    match g.Players.get? pIdx with
    | none => (g, .panicked, [])
    | some player =>
      match FindCardR player.Hand cardId rv with
      | .panicked => (g, .panicked, [])
      | .notFound => (g, .err ERROR_INVALID_CARD_ID, [])
      | .found ci =>
        if g.Deck.length < cardsFromTop then
          (g, .err ERROR_INVALID_DATA, [])
        else
          let idx := g.Deck.length - cardsFromTop
          let deck' := sliceInsert g.Deck (player.Hand.getD ci 0) idx
          let players' := updatePlayerHand g.Players pIdx (fun h => swapRemove h ci)
          let g' := { g with Deck := deck', Players := players' }
          let msgs :=
            broadcastMsgs players' ⟨player.Id, CMD_CARD_PUTBACK, deckId, PLAYER_ID_NONE,
              [CARD_ID_ANY]⟩ ++
            sendToPlayerMsgs players' ⟨player.Id, CMD_CARD_PUTBACK, deckId, PLAYER_ID_NONE,
              [cardId]⟩ player.Id
          (g', .ok, msgs)
  | .discard pIdx cardId rv faceUp =>
    match g.Players.get? pIdx with
    | none => (g, .panicked, [])
    | some player =>
      match FindCardR player.Hand cardId rv with
      | .panicked => (g, .panicked, [])
      | .notFound => (g, .err ERROR_INVALID_CARD_ID, [])
      | .found ci =>
        let players' := updatePlayerHand g.Players pIdx (fun h => swapRemove h ci)
        let g' := { g with Players := players' }
        let displayed := if faceUp then cardId else CARD_ID_ANY
        let msgs :=
          broadcastMsgs players' ⟨player.Id, CMD_CARD_DISCARD, DECK_ID_NONE, PLAYER_ID_NONE,
            [displayed]⟩ ++
          sendToPlayerMsgs players' ⟨player.Id, CMD_CARD_DISCARD, DECK_ID_NONE, PLAYER_ID_NONE,
            [cardId]⟩ PLAYER_ID_NONE
        (g', .ok, msgs)
  | .give pIdx cardId playerId rv1 rv2 faceUp =>
    match g.Players.get? pIdx with
    | none => (g, .panicked, [])
    | some player =>
      if player.Id = playerId then (g, .err ERROR_INVALID_PLAYER_ID, [])
      else
        match FindCardR player.Hand cardId rv1 with
        | .panicked => (g, .panicked, [])
        | cRes =>
          match FindPlayerR g.Players playerId rv2 with
          | .panicked => (g, .panicked, [])
          | pRes =>
            match cRes with
            | .notFound => (g, .err ERROR_INVALID_CARD_ID, [])
            | _ =>
              match pRes with
              | .notFound => (g, .err ERROR_INVALID_PLAYER_ID, [])
              | .found ti =>
                match cRes with
                | .found ci =>
                  let card := player.Hand.getD ci 0
                  let players1 := updatePlayerHand g.Players ti (fun h => h ++ [card])
                  let players2 := updatePlayerHand players1 pIdx (fun h => swapRemove h ci)
                  let g' := { g with Players := players2 }
                  let displayed := if faceUp then cardId else CARD_ID_ANY
                  let notifyV : Notify :=
                    ⟨player.Id, CMD_CARD_GIVE, DECK_ID_NONE, playerId, [cardId]⟩
                  let msgs :=
                    sendToPlayerMsgs players2 notifyV playerId ++
                    sendToPlayerMsgs players2 notifyV player.Id ++
                    broadcastMsgs players2
                      ⟨player.Id, CMD_CARD_GIVE, DECK_ID_NONE, playerId, [displayed]⟩
                  (g', .ok, msgs)
                | _ => (g, .panicked, [])
              | _ => (g, .panicked, [])
  | .shuffle pIdx deckId jf =>
    match g.Players.get? pIdx with
    | none => (g, .panicked, [])
    | some player =>
      let g' := { g with Deck := ShuffleDeck jf g.Deck }
      (g', .ok,
        broadcastMsgs g'.Players ⟨player.Id, CMD_DECK_SHUFFLE, deckId, PLAYER_ID_NONE, []⟩)
  | .join p =>
    ({ g with Players := g.Players ++ [p] }, .ok, [])
  | .leave pIdx =>
    match g.Players.get? pIdx with
    | none => (g, .panicked, [])
    | some player =>
      let msgs :=
        broadcastMsgs g.Players ⟨player.Id, CMD_GAME_LEAVE, DECK_ID_NONE, PLAYER_ID_NONE, []⟩ ++
        sendToPlayerMsgs g.Players ⟨player.Id, CMD_GAME_LEAVE, DECK_ID_NONE, player.Id, []⟩
          player.Id
      ({ g with Players := removeById g.Players player.Id }, .ok, msgs)

/-! ## Card conservation accounting -/

/-- The multiset of hand cards across all members. -/
def handsCards (ps : List Player) : Multiset Nat :=
  (ps.map (fun p => (p.Hand : Multiset Nat))).sum

/-- The multiset union of the deck and all members' hands. -/
def gameCards (g : Game) : Multiset Nat :=
  (g.Deck : Multiset Nat) + handsCards g.Players

/-- The multiset of card ids induced by the spec deck list: ids `0..n-1`,
one per spec position. -/
def specCards (g : Game) : Multiset Nat :=
  (List.range g.spec.length : Multiset Nat)

/-- The cards an operation removes from the combined game state: a discard
drops the resolved card; a leave drops the leaver's whole hand. -/
def opRemoved (g : Game) (op : GameOp) : Multiset Nat :=
  match op with
  | .discard pIdx cardId rv _ =>
    match g.Players.get? pIdx with
    | some p =>
      match FindCardR p.Hand cardId rv with
      | .found i => {p.Hand.getD i 0}
      | _ => 0
    | none => 0
  | .leave pIdx =>
    match g.Players.get? pIdx with
    | some p =>
      match scanFrom (fun q => q.Id = p.Id) g.Players 0 with
      | .found i => ((g.Players.getD i default).Hand : Multiset Nat)
      | _ => 0
    | none => 0
  | _ => 0

/-- The cards an operation adds to the combined game state: a join brings
the joining player's (possibly non-empty) hand. -/
def opAdded (_g : Game) (op : GameOp) : Multiset Nat :=
  match op with
  | .join p => (p.Hand : Multiset Nat)
  | _ => 0

/-! ## Helper lemmas about the slice operations -/

theorem scanFrom_found_lt (p : α → Bool) (d : α) (l : List α) (i : Nat)
    (h : scanFrom p l 0 = .found i) : i < l.length ∧ p (l.getD i d) = true := by
  rcases scanFrom_found p d l 0 with h' | ⟨j, hj, hjl, hpj⟩
  · rw [h'] at h; exact absurd h (by simp)
  · rw [hj] at h
    have : i = j := by
      have := FindResult.found.inj h.symm
      omega
    exact ⟨this ▸ hjl, this ▸ hpj⟩

theorem scanFrom_notFound (p : α → Bool) :
    ∀ (l : List α) (s : Nat), scanFrom p l s = .notFound → ∀ x ∈ l, p x = false := by
  intro l
  induction l with
  | nil => intro s _ x hx; simp at hx
  | cons a rest ih =>
    intro s h x hx
    by_cases hpa : p a
    · simp [scanFrom, hpa] at h
    · rcases List.mem_cons.mp hx with rfl | hx'
      · simpa using hpa
      · exact ih (s + 1) (by simpa [scanFrom, hpa] using h) x hx'

theorem findCardR_found_lt (hand : List Nat) (cid rv i : Nat)
    (h : FindCardR hand cid rv = .found i) : i < hand.length := by
  by_cases hany : cid = CARD_ID_ANY
  · by_cases hlen : hand.length = 0
    · simp [FindCardR, hany, hlen] at h
    · have h' : FindResult.found (rv % hand.length) = FindResult.found i := by
        simpa [FindCardR, hany, hlen] using h
      have hi := FindResult.found.inj h'
      rw [← hi]
      exact Nat.mod_lt _ (Nat.pos_of_ne_zero hlen)
  · exact (scanFrom_found_lt _ 0 hand i (by simpa [FindCardR, hany] using h)).1

theorem findCardR_found_val (hand : List Nat) (cid rv i : Nat) (hany : cid ≠ CARD_ID_ANY)
    (h : FindCardR hand cid rv = .found i) : hand.getD i 0 = cid := by
  have := (scanFrom_found_lt _ 0 hand i (by simpa [FindCardR, hany] using h)).2
  simpa using this

theorem findPlayerR_found_lt (players : List Player) (pid rv i : Nat)
    (h : FindPlayerR players pid rv = .found i) : i < players.length := by
  by_cases hany : pid = PLAYER_ID_ANY
  · by_cases hlen : players.length = 0
    · simp [FindPlayerR, hany, hlen] at h
    · have h' : FindResult.found (rv % players.length) = FindResult.found i := by
        simpa [FindPlayerR, hany, hlen] using h
      have hi := FindResult.found.inj h'
      rw [← hi]
      exact Nat.mod_lt _ (Nat.pos_of_ne_zero hlen)
  · exact (scanFrom_found_lt _ default players i (by simpa [FindPlayerR, hany] using h)).1

theorem swapRemove_append_perm [DecidableEq α] [Inhabited α] (l : List α) (i : Nat)
    (h : i < l.length) : (swapRemove l i ++ [l.getD i default]).Perm l := by
  apply List.perm_iff_count.mpr
  intro x
  have hpos : 0 < l.length := by omega
  have hlast : l.length - 1 < l.length := by omega
  have hlast' : l.length - 1 < (l.set i (l.getD (l.length - 1) default)).length := by
    simp; omega
  have hlastval : (l.set i (l.getD (l.length - 1) default))[l.length - 1] =
      l.getD (l.length - 1) default := by
    rw [List.getElem_set]
    split
    · rfl
    · exact (List.getD_eq_getElem l default hlast).symm
  have hdrop : (l.set i (l.getD (l.length - 1) default)).drop (l.length - 1) =
      [l.getD (l.length - 1) default] := by
    rw [List.drop_eq_getElem_cons hlast', hlastval]
    congr 1
    apply List.drop_eq_nil_of_le
    simp only [List.length_set]
    omega
  have hsplit : List.count x (l.set i (l.getD (l.length - 1) default)) =
      List.count x ((l.set i (l.getD (l.length - 1) default)).take (l.length - 1)) +
      if l.getD (l.length - 1) default = x then 1 else 0 := by
    conv_lhs =>
      rw [← List.take_append_drop (l.length - 1) (l.set i (l.getD (l.length - 1) default))]
    rw [List.count_append, hdrop]
    simp [List.count_singleton, beq_iff_eq]
  have hset : List.count x (l.set i (l.getD (l.length - 1) default)) =
      (List.count x l - if l[i] = x then 1 else 0) +
      if l.getD (l.length - 1) default = x then 1 else 0 := by
    have := List.count_set (l.getD (l.length - 1) default) x l i h
    simpa [beq_iff_eq] using this
  have hmem : l[i] = x → 0 < List.count x l := fun hx =>
    List.count_pos_iff.mpr (hx ▸ List.getElem_mem h)
  have hgd : List.count x [l.getD i default] = if l[i] = x then 1 else 0 := by
    rw [List.getD_eq_getElem l default h]
    simp [List.count_singleton, beq_iff_eq]
  show List.count x (swapRemove l i ++ [l.getD i default]) = List.count x l
  rw [List.count_append, hgd]
  unfold swapRemove
  by_cases h1 : l[i] = x
  · have hL := hmem h1
    by_cases h2 : l.getD (l.length - 1) default = x <;>
      simp only [h1, h2, if_true, if_false] at hsplit hset ⊢ <;> omega
  · by_cases h2 : l.getD (l.length - 1) default = x <;>
      simp only [h1, h2, if_true, if_false] at hsplit hset ⊢ <;> omega

theorem swapRemove_coe (l : List Nat) (i : Nat) (h : i < l.length) :
    ((swapRemove l i : List Nat) : Multiset Nat) + {l.getD i 0} = (l : Multiset Nat) := by
  have hperm := swapRemove_append_perm l i h
  have hd : (default : Nat) = 0 := rfl
  calc ((swapRemove l i : List Nat) : Multiset Nat) + {l.getD i 0}
      = ((swapRemove l i ++ [l.getD i default] : List Nat) : Multiset Nat) := by
        rw [← Multiset.coe_singleton, Multiset.coe_add, hd]
    _ = (l : Multiset Nat) := Multiset.coe_eq_coe.mpr hperm

theorem sliceInsert_coe (l : List Nat) (v idx : Nat) :
    ((sliceInsert l v idx : List Nat) : Multiset Nat) = v ::ₘ (l : Multiset Nat) := by
  rw [Multiset.cons_coe, Multiset.coe_eq_coe]
  unfold sliceInsert
  calc (l.take idx ++ v :: l.drop idx).Perm (v :: (l.take idx ++ l.drop idx)) :=
        List.perm_middle
    _ = (v :: l) := by rw [List.take_append_drop]

theorem take_drop_reverse_coe (l : List Nat) (k : Nat) :
    ((l.take k : List Nat) : Multiset Nat) + (((l.drop k).reverse : List Nat) : Multiset Nat) =
      (l : Multiset Nat) := by
  rw [Multiset.coe_reverse, Multiset.coe_add, List.take_append_drop]

theorem swapIdx_perm [DecidableEq α] [Inhabited α] (l : List α) (i j : Nat)
    (hi : i < l.length) (hj : j < l.length) : (swapIdx l i j).Perm l := by
  apply List.perm_iff_count.mpr
  intro x
  have hj' : j < (l.set i (l.getD j default)).length := by simp [hj]
  have e1 : List.count x (l.set i (l.getD j default)) =
      (List.count x l - if l[i] = x then 1 else 0) +
      if l.getD j default = x then 1 else 0 := by
    have := List.count_set (l.getD j default) x l i hi
    simpa [beq_iff_eq] using this
  have hsetj : (l.set i (l.getD j default))[j] = l[j] := by
    rw [List.getElem_set]
    split
    · exact List.getD_eq_getElem l default hj
    · rfl
  have e2 : List.count x ((l.set i (l.getD j default)).set j (l.getD i default)) =
      (List.count x (l.set i (l.getD j default)) - if l[j] = x then 1 else 0) +
      if l.getD i default = x then 1 else 0 := by
    have := List.count_set (l.getD i default) x (l.set i (l.getD j default)) j hj'
    rw [hsetj] at this
    simpa [beq_iff_eq] using this
  have hmem : l[i] = x → 0 < List.count x l := fun hx =>
    List.count_pos_iff.mpr (hx ▸ List.getElem_mem hi)
  show List.count x ((l.set i (l.getD j default)).set j (l.getD i default)) = List.count x l
  rw [List.getD_eq_getElem l default hj] at e1 e2
  rw [List.getD_eq_getElem l default hi] at e2
  rw [List.getD_eq_getElem l default hj, List.getD_eq_getElem l default hi]
  by_cases h1 : l[i] = x
  · have hL := hmem h1
    by_cases h2 : l[j] = x <;>
      simp only [h1, h2, if_true, if_false] at e1 e2 ⊢ <;> omega
  · by_cases h2 : l[j] = x <;>
      simp only [h1, h2, if_true, if_false] at e1 e2 ⊢ <;> omega

theorem swapIdx_length [Inhabited α] (l : List α) (i j : Nat) :
    (swapIdx l i j).length = l.length := by
  simp [swapIdx]

theorem shuffleGo_perm (jf : Nat → Nat) :
    ∀ (i : Nat) (l : List Nat), i < l.length → (shuffleGo jf i l).Perm l := by
  intro i
  induction i with
  | zero => intro l _; exact List.Perm.refl l
  | succ i ih =>
    intro l hl
    have hswap : (swapIdx l (i + 1) (jf (i + 1) % (i + 2))).Perm l :=
      swapIdx_perm l (i + 1) (jf (i + 1) % (i + 2)) hl
        (by have := Nat.mod_lt (jf (i + 1)) (show 0 < i + 2 by omega); omega)
    have hlen : (swapIdx l (i + 1) (jf (i + 1) % (i + 2))).length = l.length :=
      swapIdx_length l _ _
    exact (ih _ (by omega)).trans hswap

theorem shuffleDeck_perm (jf : Nat → Nat) (l : List Nat) : (ShuffleDeck jf l).Perm l := by
  unfold ShuffleDeck
  rcases Nat.eq_zero_or_pos l.length with h0 | hpos
  · rw [h0]; exact List.Perm.refl _
  · exact shuffleGo_perm jf (l.length - 1) l (by omega)

/-! ## Helper lemmas about hand bookkeeping -/

theorem handsCards_cons (p : Player) (ps : List Player) :
    handsCards (p :: ps) = (p.Hand : Multiset Nat) + handsCards ps := by
  simp [handsCards]

theorem handsCards_append (ps qs : List Player) :
    handsCards (ps ++ qs) = handsCards ps + handsCards qs := by
  simp [handsCards, List.map_append, List.sum_append]

theorem updatePlayerHand_cons (p : Player) (rest : List Player) (i : Nat)
    (f : List Nat → List Nat) :
    updatePlayerHand (p :: rest) (i + 1) f = p :: updatePlayerHand rest i f := by
  unfold updatePlayerHand
  rw [List.get?_cons_succ]
  cases h : rest.get? i with
  | none => rfl
  | some q => rfl

theorem updatePlayerHand_zero (p : Player) (rest : List Player) (f : List Nat → List Nat) :
    updatePlayerHand (p :: rest) 0 f = { p with Hand := f p.Hand } :: rest := rfl

theorem updatePlayerHand_length (ps : List Player) (i : Nat) (f : List Nat → List Nat) :
    (updatePlayerHand ps i f).length = ps.length := by
  unfold updatePlayerHand
  cases h : ps.get? i with
  | none => rfl
  | some q => simp

theorem handsCards_update (ps : List Player) (i : Nat) (f : List Nat → List Nat)
    (h : i < ps.length) :
    handsCards (updatePlayerHand ps i f) + ((ps.getD i default).Hand : Multiset Nat) =
      handsCards ps + ((f (ps.getD i default).Hand : List Nat) : Multiset Nat) := by
  induction ps generalizing i with
  | nil => simp at h
  | cons p rest ih =>
    cases i with
    | zero =>
      rw [updatePlayerHand_zero]
      simp only [handsCards_cons, List.getD_cons_zero]
      abel
    | succ i =>
      rw [updatePlayerHand_cons]
      simp only [handsCards_cons, List.getD_cons_succ]
      have := ih i (by simpa using h)
      rw [add_assoc, this, add_assoc]

theorem updatePlayerHand_getD_self (ps : List Player) (i : Nat) (f : List Nat → List Nat)
    (h : i < ps.length) :
    (updatePlayerHand ps i f).getD i default =
      { ps.getD i default with Hand := f (ps.getD i default).Hand } := by
  unfold updatePlayerHand
  rw [List.get?_eq_getElem?, List.getElem?_eq_getElem h]
  have h' : i < (ps.set i { ps[i] with Hand := f ps[i].Hand }).length := by simp [h]
  rw [List.getD_eq_getElem _ _ h', List.getElem_set, if_pos rfl, List.getD_eq_getElem _ _ h]

theorem updatePlayerHand_getD_ne (ps : List Player) (i k : Nat) (f : List Nat → List Nat)
    (hik : i ≠ k) :
    (updatePlayerHand ps i f).getD k default = ps.getD k default := by
  unfold updatePlayerHand
  cases hg : ps.get? i with
  | none => rfl
  | some q =>
    by_cases hk : k < ps.length
    · have hk' : k < (ps.set i { q with Hand := f q.Hand }).length := by simp [hk]
      rw [List.getD_eq_getElem _ _ hk', List.getElem_set, if_neg hik,
        List.getD_eq_getElem _ _ hk]
    · have hk2 : ps.length ≤ k := by omega
      rw [List.getD_eq_default _ _ (by simpa using hk2), List.getD_eq_default _ _ hk2]

theorem scanFrom_ne_panicked (p : α → Bool) :
    ∀ (l : List α) (s : Nat), scanFrom p l s ≠ .panicked := by
  intro l
  induction l with
  | nil => intro s h; simp [scanFrom] at h
  | cons a rest ih =>
    intro s h
    by_cases hpa : p a
    · simp [scanFrom, hpa] at h
    · exact ih (s + 1) (by simpa [scanFrom, hpa] using h)

theorem get?_some_facts [Inhabited α] (l : List α) (i : Nat) (a : α)
    (h : l[i]? = some a) : i < l.length ∧ l.getD i default = a := by
  rcases List.get?_eq_some.mp (by rw [List.get?_eq_getElem?]; exact h) with ⟨hl, hv⟩
  refine ⟨hl, ?_⟩
  rw [List.get_eq_getElem] at hv
  rw [List.getD_eq_getElem _ _ hl]
  exact hv

theorem handsCards_swapRemove (ps : List Player) (i : Nat) (h : i < ps.length) :
    handsCards (swapRemove ps i) + (((ps.getD i default).Hand : List Nat) : Multiset Nat) =
      handsCards ps := by
  have hperm := swapRemove_append_perm ps i h
  have hsum := (hperm.map (fun p => (p.Hand : Multiset Nat))).sum_eq
  simpa [handsCards, List.map_append, List.sum_append] using hsum

/-- C1 counterexample: a one-card game satisfying card conservation on
which a successful `CARD_DISCARD` destroys the card — it leaves the
player's hand but is added to no deck or pile, so afterwards the multiset
union of deck and hands no longer equals the spec-induced multiset. -/
theorem C1_counterexample :
    gameCards ⟨["A"], [], [⟨1, "P", [0]⟩], 1⟩ = specCards ⟨["A"], [], [⟨1, "P", [0]⟩], 1⟩ ∧
    (applyOp ⟨["A"], [], [⟨1, "P", [0]⟩], 1⟩ (.discard 0 0 0 true)).2.1 = .ok ∧
    gameCards (applyOp ⟨["A"], [], [⟨1, "P", [0]⟩], 1⟩ (.discard 0 0 0 true)).1 ≠
      specCards (applyOp ⟨["A"], [], [⟨1, "P", [0]⟩], 1⟩ (.discard 0 0 0 true)).1 := by
  refine ⟨by decide, by decide, by decide⟩

/-- C1 (amended): conservation ledger for every mutating operation.  When a
handler run completes normally, the multiset union of deck and hands
afterwards, plus the cards the operation genuinely removes from the game
(the resolved card of a `CARD_DISCARD`; the leaver's hand on a leave),
equals the union beforehand plus the cards a join brings in (the joiner's
hand).  In particular `CARD_DRAW`, `CARD_PUTBACK`, `CARD_GIVE` and
`DECK_SHUFFLE` conserve the union exactly, while `CARD_DISCARD` and a
leave with a non-empty hand shrink it. -/
theorem C1_amended_conservation (g : Game) (op : GameOp)
    (h : (applyOp g op).2.1 = Outcome.ok) :
    gameCards (applyOp g op).1 + opRemoved g op = gameCards g + opAdded g op := by
  cases op with
  | draw pIdx count faceUp deckId =>
    simp only [applyOp, List.get?_eq_getElem?] at h ⊢
    cases hgp : g.Players[pIdx]? with
    | none => simp [hgp] at h
    | some player =>
      obtain ⟨hlt, hpv⟩ := get?_some_facts g.Players pIdx player hgp
      simp only [opRemoved, opAdded, gameCards, add_zero]
      have h1 := handsCards_update g.Players pIdx
        (fun hd => hd ++ (g.Deck.drop (g.Deck.length - min count g.Deck.length)).reverse) hlt
      rw [hpv] at h1
      have h1' : handsCards (updatePlayerHand g.Players pIdx
            (fun hd => hd ++ (g.Deck.drop (g.Deck.length - min count g.Deck.length)).reverse)) +
            (player.Hand : Multiset Nat) =
          (handsCards g.Players +
            (((g.Deck.drop (g.Deck.length - min count g.Deck.length)).reverse : List Nat) :
              Multiset Nat)) + (player.Hand : Multiset Nat) := by
        rw [h1, ← Multiset.coe_add]
        abel
      have h2 := add_right_cancel h1'
      rw [h2]
      have h3 := take_drop_reverse_coe g.Deck (g.Deck.length - min count g.Deck.length)
      rw [← h3]
      abel
  | showCard pIdx cardId playerId rv1 rv2 =>
    have hstate : (applyOp g (.showCard pIdx cardId playerId rv1 rv2)).1 = g := by
      simp only [applyOp]
      repeat' split
      all_goals rfl
    rw [hstate]
    simp [opRemoved, opAdded]
  | putback pIdx cardId deckId cardsFromTop rv =>
    simp only [applyOp, List.get?_eq_getElem?] at h ⊢
    cases hgp : g.Players[pIdx]? with
    | none => simp [hgp] at h
    | some player =>
      rw [hgp] at h
      simp only [] at h ⊢
      cases hf : FindCardR player.Hand cardId rv with
      | panicked => simp [hf] at h
      | notFound => simp [hf] at h
      | found ci =>
        rw [hf] at h
        simp only [] at h ⊢
        by_cases hcft : g.Deck.length < cardsFromTop
        · simp [hcft] at h
        · rw [if_neg hcft] at h ⊢
          obtain ⟨hlt, hpv⟩ := get?_some_facts g.Players pIdx player hgp
          have hci : ci < player.Hand.length := findCardR_found_lt _ _ _ _ hf
          simp only [opRemoved, opAdded, gameCards, add_zero]
          rw [sliceInsert_coe]
          have h1 := handsCards_update g.Players pIdx (fun hd => swapRemove hd ci) hlt
          rw [hpv] at h1
          have hsw := swapRemove_coe player.Hand ci hci
          have h2 : handsCards (updatePlayerHand g.Players pIdx
                (fun hd => swapRemove hd ci)) + {player.Hand.getD ci 0} =
              handsCards g.Players := by
            apply add_right_cancel
              (b := ((swapRemove player.Hand ci : List Nat) : Multiset Nat))
            calc handsCards (updatePlayerHand g.Players pIdx (fun hd => swapRemove hd ci)) +
                  {player.Hand.getD ci 0} +
                  ((swapRemove player.Hand ci : List Nat) : Multiset Nat)
                = handsCards (updatePlayerHand g.Players pIdx (fun hd => swapRemove hd ci)) +
                  (((swapRemove player.Hand ci : List Nat) : Multiset Nat) +
                    {player.Hand.getD ci 0}) := by abel
              _ = handsCards (updatePlayerHand g.Players pIdx (fun hd => swapRemove hd ci)) +
                  (player.Hand : Multiset Nat) := by rw [hsw]
              _ = handsCards g.Players +
                  ((swapRemove player.Hand ci : List Nat) : Multiset Nat) := h1
          rw [← h2]
          rw [← Multiset.singleton_add]
          abel
  | discard pIdx cardId rv faceUp =>
    simp only [applyOp, List.get?_eq_getElem?] at h ⊢
    cases hgp : g.Players[pIdx]? with
    | none => simp [hgp] at h
    | some player =>
      rw [hgp] at h
      simp only [] at h ⊢
      cases hf : FindCardR player.Hand cardId rv with
      | panicked => simp [hf] at h
      | notFound => simp [hf] at h
      | found ci =>
        simp only [] at h ⊢
        obtain ⟨hlt, hpv⟩ := get?_some_facts g.Players pIdx player hgp
        have hci : ci < player.Hand.length := findCardR_found_lt _ _ _ _ hf
        simp only [opRemoved, opAdded, gameCards, List.get?_eq_getElem?, hgp, hf, add_zero]
        have h1 := handsCards_update g.Players pIdx (fun hd => swapRemove hd ci) hlt
        rw [hpv] at h1
        have hsw := swapRemove_coe player.Hand ci hci
        have h2 : handsCards (updatePlayerHand g.Players pIdx
              (fun hd => swapRemove hd ci)) + {player.Hand.getD ci 0} =
            handsCards g.Players := by
          apply add_right_cancel
            (b := ((swapRemove player.Hand ci : List Nat) : Multiset Nat))
          calc handsCards (updatePlayerHand g.Players pIdx (fun hd => swapRemove hd ci)) +
                {player.Hand.getD ci 0} +
                ((swapRemove player.Hand ci : List Nat) : Multiset Nat)
              = handsCards (updatePlayerHand g.Players pIdx (fun hd => swapRemove hd ci)) +
                (((swapRemove player.Hand ci : List Nat) : Multiset Nat) +
                  {player.Hand.getD ci 0}) := by abel
            _ = handsCards (updatePlayerHand g.Players pIdx (fun hd => swapRemove hd ci)) +
                (player.Hand : Multiset Nat) := by rw [hsw]
            _ = handsCards g.Players +
                ((swapRemove player.Hand ci : List Nat) : Multiset Nat) := h1
        rw [← h2]
        abel
  | give pIdx cardId playerId rv1 rv2 faceUp =>
    simp only [applyOp, List.get?_eq_getElem?] at h ⊢
    cases hgp : g.Players[pIdx]? with
    | none => simp [hgp] at h
    | some player =>
      rw [hgp] at h
      simp only [] at h ⊢
      by_cases hsame : player.Id = playerId
      · simp [hsame] at h
      · rw [if_neg hsame] at h ⊢
        cases hf : FindCardR player.Hand cardId rv1 with
        | panicked => simp [hf] at h
        | notFound =>
          rw [hf] at h
          simp only [] at h
          cases hp : FindPlayerR g.Players playerId rv2 with
          | panicked => simp [hp] at h
          | notFound => simp [hp] at h
          | found ti => simp [hp] at h
        | found ci =>
          rw [hf] at h
          simp only [] at h ⊢
          cases hp : FindPlayerR g.Players playerId rv2 with
          | panicked => simp [hp] at h
          | notFound => simp [hp] at h
          | found ti =>
            simp only [] at h ⊢
            obtain ⟨hlt, hpv⟩ := get?_some_facts g.Players pIdx player hgp
            have hci : ci < player.Hand.length := findCardR_found_lt _ _ _ _ hf
            have hti : ti < g.Players.length := findPlayerR_found_lt _ _ _ _ hp
            simp only [opRemoved, opAdded, gameCards, add_zero]
            have h1 := handsCards_update g.Players ti
              (fun hd => hd ++ [player.Hand.getD ci 0]) hti
            have ha : handsCards (updatePlayerHand g.Players ti
                  (fun hd => hd ++ [player.Hand.getD ci 0])) =
                handsCards g.Players + {player.Hand.getD ci 0} := by
              apply add_right_cancel (b := ((g.Players.getD ti default).Hand : Multiset Nat))
              calc handsCards (updatePlayerHand g.Players ti
                      (fun hd => hd ++ [player.Hand.getD ci 0])) +
                    ((g.Players.getD ti default).Hand : Multiset Nat)
                  = handsCards g.Players +
                    (((g.Players.getD ti default).Hand ++ [player.Hand.getD ci 0] :
                      List Nat) : Multiset Nat) := h1
                _ = handsCards g.Players +
                    (((g.Players.getD ti default).Hand : Multiset Nat) +
                      {player.Hand.getD ci 0}) := by
                    rw [← Multiset.coe_add, Multiset.coe_singleton]
                _ = handsCards g.Players + {player.Hand.getD ci 0} +
                    ((g.Players.getD ti default).Hand : Multiset Nat) := by abel
            have hlt1 : pIdx < (updatePlayerHand g.Players ti
                (fun hd => hd ++ [player.Hand.getD ci 0])).length := by
              rw [updatePlayerHand_length]; exact hlt
            have hH1len : ci < ((updatePlayerHand g.Players ti
                (fun hd => hd ++ [player.Hand.getD ci 0])).getD pIdx default).Hand.length ∧
                ((updatePlayerHand g.Players ti
                  (fun hd => hd ++ [player.Hand.getD ci 0])).getD pIdx
                    default).Hand.getD ci 0 = player.Hand.getD ci 0 := by
              by_cases htieq : ti = pIdx
              · subst htieq
                rw [updatePlayerHand_getD_self g.Players ti _ hti, hpv]
                constructor
                · simp only [List.length_append, List.length_cons, List.length_nil]
                  omega
                · exact List.getD_append _ _ _ _ hci
              · rw [updatePlayerHand_getD_ne g.Players ti pIdx _ htieq, hpv]
                exact ⟨hci, rfl⟩
            have h2 := handsCards_update (updatePlayerHand g.Players ti
              (fun hd => hd ++ [player.Hand.getD ci 0])) pIdx
              (fun hd => swapRemove hd ci) hlt1
            have hsw2 := swapRemove_coe ((updatePlayerHand g.Players ti
              (fun hd => hd ++ [player.Hand.getD ci 0])).getD pIdx default).Hand ci hH1len.1
            rw [hH1len.2] at hsw2
            have hb : handsCards (updatePlayerHand (updatePlayerHand g.Players ti
                  (fun hd => hd ++ [player.Hand.getD ci 0])) pIdx
                  (fun hd => swapRemove hd ci)) + {player.Hand.getD ci 0} =
                handsCards (updatePlayerHand g.Players ti
                  (fun hd => hd ++ [player.Hand.getD ci 0])) := by
              apply add_right_cancel (b := ((swapRemove ((updatePlayerHand g.Players ti
                (fun hd => hd ++ [player.Hand.getD ci 0])).getD pIdx default).Hand ci :
                  List Nat) : Multiset Nat))
              calc handsCards (updatePlayerHand (updatePlayerHand g.Players ti
                      (fun hd => hd ++ [player.Hand.getD ci 0])) pIdx
                      (fun hd => swapRemove hd ci)) + {player.Hand.getD ci 0} +
                    ((swapRemove ((updatePlayerHand g.Players ti
                      (fun hd => hd ++ [player.Hand.getD ci 0])).getD pIdx default).Hand ci :
                        List Nat) : Multiset Nat)
                  = handsCards (updatePlayerHand (updatePlayerHand g.Players ti
                      (fun hd => hd ++ [player.Hand.getD ci 0])) pIdx
                      (fun hd => swapRemove hd ci)) +
                    (((swapRemove ((updatePlayerHand g.Players ti
                      (fun hd => hd ++ [player.Hand.getD ci 0])).getD pIdx default).Hand ci :
                        List Nat) : Multiset Nat) + {player.Hand.getD ci 0}) := by abel
                _ = handsCards (updatePlayerHand (updatePlayerHand g.Players ti
                      (fun hd => hd ++ [player.Hand.getD ci 0])) pIdx
                      (fun hd => swapRemove hd ci)) +
                    (((updatePlayerHand g.Players ti
                      (fun hd => hd ++ [player.Hand.getD ci 0])).getD pIdx
                        default).Hand : Multiset Nat) := by rw [hsw2]
                _ = handsCards (updatePlayerHand g.Players ti
                      (fun hd => hd ++ [player.Hand.getD ci 0])) +
                    ((swapRemove ((updatePlayerHand g.Players ti
                      (fun hd => hd ++ [player.Hand.getD ci 0])).getD pIdx default).Hand ci :
                        List Nat) : Multiset Nat) := h2
            have hc : handsCards (updatePlayerHand (updatePlayerHand g.Players ti
                  (fun hd => hd ++ [player.Hand.getD ci 0])) pIdx
                  (fun hd => swapRemove hd ci)) = handsCards g.Players := by
              apply add_right_cancel (b := ({player.Hand.getD ci 0} : Multiset Nat))
              rw [hb, ha]
            rw [hc]
  | shuffle pIdx deckId jf =>
    simp only [applyOp, List.get?_eq_getElem?] at h ⊢
    cases hgp : g.Players[pIdx]? with
    | none => simp [hgp] at h
    | some player =>
      simp only [opRemoved, opAdded, gameCards, add_zero]
      rw [Multiset.coe_eq_coe.mpr (shuffleDeck_perm jf g.Deck)]
  | join p =>
    simp only [applyOp, opRemoved, opAdded, gameCards, add_zero]
    rw [handsCards_append]
    simp [handsCards]
    abel
  | leave pIdx =>
    simp only [applyOp, List.get?_eq_getElem?] at h ⊢
    cases hgp : g.Players[pIdx]? with
    | none => simp [hgp] at h
    | some player =>
      obtain ⟨hlt, hpv⟩ := get?_some_facts g.Players pIdx player hgp
      simp only [opRemoved, opAdded, gameCards, List.get?_eq_getElem?, hgp, add_zero, removeById]
      cases hscan : scanFrom (fun q => q.Id = player.Id) g.Players 0 with
      | panicked => exact absurd hscan (scanFrom_ne_panicked _ _ _)
      | notFound =>
        have := scanFrom_notFound _ _ _ hscan (g.Players.getD pIdx default)
          (by rw [List.getD_eq_getElem _ _ hlt]; exact List.getElem_mem hlt)
        rw [hpv] at this
        simp at this
      | found i =>
        simp only []
        have hi : i < g.Players.length :=
          (scanFrom_found_lt _ default g.Players i hscan).1
        rw [← handsCards_swapRemove g.Players i hi]
        abel

/-- Witness for C1 (amended), at a concrete input: drawing two cards from a
three-card deck conserves the card multiset. -/
theorem C1_amended_witness :
    (applyOp ⟨["A", "B", "C"], [0, 1, 2], [⟨1, "P", []⟩], 1⟩
        (.draw 0 2 true 0)).2.1 = Outcome.ok ∧
    gameCards (applyOp ⟨["A", "B", "C"], [0, 1, 2], [⟨1, "P", []⟩], 1⟩
        (.draw 0 2 true 0)).1 +
      opRemoved ⟨["A", "B", "C"], [0, 1, 2], [⟨1, "P", []⟩], 1⟩ (.draw 0 2 true 0) =
    gameCards ⟨["A", "B", "C"], [0, 1, 2], [⟨1, "P", []⟩], 1⟩ +
      opAdded ⟨["A", "B", "C"], [0, 1, 2], [⟨1, "P", []⟩], 1⟩ (.draw 0 2 true 0) :=
  ⟨by decide,
    C1_amended_conservation ⟨["A", "B", "C"], [0, 1, 2], [⟨1, "P", []⟩], 1⟩
      (.draw 0 2 true 0) (by decide)⟩

/-- C2: evaluating the `CMD_CARD_SHOW` handler at the failing input.  In a
three-member game, P1 (id 1, holding card 0) shows card 0 to the specific
target P2 (id 2).  The handler delivers the real card id to the source P1
and a redacted `[ANY]` notification to the bystander P3 — but the named
target P2 receives no notification at all (the real-id notification is
sent only to the source, and the redacted broadcast skips both source and
target), and no state is mutated.  The claim says the target receives the
real card id(s). -/
theorem C2_show_sends_target_nothing :
    applyOp ⟨["A", "B"], [1], [⟨1, "P1", [0]⟩, ⟨2, "P2", []⟩, ⟨3, "P3", []⟩], 1⟩
        (.showCard 0 0 2 0 0) =
      (⟨["A", "B"], [1], [⟨1, "P1", [0]⟩, ⟨2, "P2", []⟩, ⟨3, "P3", []⟩], 1⟩, .ok,
        [(1, ⟨1, CMD_CARD_SHOW, DECK_ID_NONE, 2, [0]⟩),
         (3, ⟨1, CMD_CARD_SHOW, DECK_ID_NONE, 2, [CARD_ID_ANY]⟩)]) ∧
    (∀ m ∈ (applyOp ⟨["A", "B"], [1],
        [⟨1, "P1", [0]⟩, ⟨2, "P2", []⟩, ⟨3, "P3", []⟩], 1⟩
        (.showCard 0 0 2 0 0)).2.2, m.1 ≠ 2) := by
  exact ⟨by decide, by decide⟩

/-- C4: evaluating the `CMD_CARD_DISCARD` handler at the failing input.  In
a two-member game, P1 (id 1) discards card 0 face-down.  The card is
removed from the hand and the other member P2 receives the redacted
`[ANY]` notification, but the source notification carrying the real id is
addressed to `PLAYER_ID_NONE` (`SendNotificationToTargetPlayer` of a
notify whose target is `NONE`), which matches no member — so the source
receives nothing and the send reports `ErrInvalidPlayerId`.  The claim
says the source receives a notification with the real discarded id. -/
theorem C4_discard_source_unnotified :
    applyOp ⟨["A"], [], [⟨1, "P1", [0]⟩, ⟨2, "P2", []⟩], 1⟩ (.discard 0 0 0 false) =
      (⟨["A"], [], [⟨1, "P1", []⟩, ⟨2, "P2", []⟩], 1⟩, .ok,
        [(2, ⟨1, CMD_CARD_DISCARD, DECK_ID_NONE, PLAYER_ID_NONE, [CARD_ID_ANY]⟩)]) ∧
    (∀ m ∈ (applyOp ⟨["A"], [], [⟨1, "P1", [0]⟩, ⟨2, "P2", []⟩], 1⟩
        (.discard 0 0 0 false)).2.2, m.1 ≠ 1) := by
  exact ⟨by decide, by decide⟩

/-! ## The GAME_JOIN flow (server.go, runServerPlayer, CMD_GAME_JOIN) -/

/-- The externally visible effects of the `CMD_GAME_JOIN` handler once the
game has been found. -/
structure JoinResult where
  errSent : Option Nat
  newGame : Game
  announcedTo : List Nat
  fullNotifySentTo : Option Nat
  deriving Repr, DecidableEq

/-- `strings.ToLower`, modelled rune-by-rune via `Char.toLower` (the names
exercised here are ASCII, where the two agree). -/
def goToLower (s : String) : String := String.mk (s.data.map Char.toLower)

/-- The `CMD_GAME_JOIN` handler body after `FindGame` succeeds (server.go):
compute the case-insensitive name collision against current members and
against the spec's card names; on collision call `sendInputError` with
`INVALID_PLAYER_NAME` — and then fall through: broadcast the minimal
`NOTIFY_GAME_JOINED` to every pre-existing member, append the caller to
the member list (`AddPlayer`), and send the caller the full
`NOTIFY_GAME_JOINED`.  (The Go code has no early return on the collision
path.) -/
def doGameJoin (g : Game) (p : Player) : JoinResult :=
  let lower := goToLower p.Name
  let nameAlreadyExists :=
    g.Players.any (fun q => lower = goToLower q.Name) ||
    g.spec.any (fun c => lower = goToLower c)
  { errSent := if nameAlreadyExists then some ERROR_INVALID_PLAYER_NAME else none
    announcedTo := g.Players.map (fun q => q.Id)
    newGame := { g with Players := g.Players ++ [p] }
    fullNotifySentTo := some p.Id }

/-- C3: evaluating the `CMD_GAME_JOIN` handler at the failing input.  The
game's spec contains a card named "Alice"; the caller's name "alice"
collides case-insensitively, and `NOTIFY_INPUT_ERROR(INVALID_PLAYER_NAME)`
is sent — but the handler still announces the caller to the existing
member, appends the caller to the game's players list, and sends the
caller a full `NOTIFY_GAME_JOINED`.  The claim says no state is mutated
and no full `NOTIFY_GAME_JOINED` is sent. -/
theorem C3_join_collision_still_joins :
    doGameJoin ⟨["Alice"], [0], [⟨1, "Bob", []⟩], 1⟩ ⟨2, "alice", []⟩ =
      { errSent := some ERROR_INVALID_PLAYER_NAME,
        newGame := ⟨["Alice"], [0], [⟨1, "Bob", []⟩, ⟨2, "alice", []⟩], 1⟩,
        announcedTo := [1],
        fullNotifySentTo := some 2 } := by
  decide

/-- C5: the `CMD_CARD_PUTBACK` handler.  With the card resolved in the
caller's hand: for `cards_from_top ≤ |deck|` the run succeeds, the card is
inserted into the deck at index `|deck| - cards_from_top` (0 = top of
deck, `|deck|` = bottom), and the card is removed from the hand (one copy
of it leaves the hand multiset); for `cards_from_top > |deck|` the handler
sends `NOTIFY_INPUT_ERROR(INVALID_DATA)` and mutates nothing. -/
theorem C5_putback (g : Game) (pIdx cardId deckId cft rv ci : Nat) (player : Player)
    (hgp : g.Players[pIdx]? = some player)
    (hany : cardId ≠ CARD_ID_ANY)
    (hf : FindCardR player.Hand cardId rv = .found ci) :
    (cft ≤ g.Deck.length →
      (applyOp g (.putback pIdx cardId deckId cft rv)).2.1 = .ok ∧
      (applyOp g (.putback pIdx cardId deckId cft rv)).1.Deck =
        g.Deck.take (g.Deck.length - cft) ++ cardId :: g.Deck.drop (g.Deck.length - cft) ∧
      ((((applyOp g (.putback pIdx cardId deckId cft rv)).1.Players.getD pIdx
          default).Hand : List Nat) : Multiset Nat) + {cardId} =
        (player.Hand : Multiset Nat)) ∧
    (g.Deck.length < cft →
      (applyOp g (.putback pIdx cardId deckId cft rv)).2.1 = .err ERROR_INVALID_DATA ∧
      (applyOp g (.putback pIdx cardId deckId cft rv)).1 = g) := by
  have hci : ci < player.Hand.length := findCardR_found_lt _ _ _ _ hf
  have hval : player.Hand.getD ci 0 = cardId := findCardR_found_val _ _ _ _ hany hf
  obtain ⟨hlt, hpv⟩ := get?_some_facts g.Players pIdx player hgp
  constructor
  · intro hle
    have hnot : ¬g.Deck.length < cft := not_lt.mpr hle
    simp only [applyOp, List.get?_eq_getElem?, hgp, hf, if_neg hnot]
    refine ⟨by trivial, ?_, ?_⟩
    · simp only [sliceInsert, hval]
    · have hupd := updatePlayerHand_getD_self g.Players pIdx (fun hd => swapRemove hd ci) hlt
      rw [hpv] at hupd
      rw [hupd, ← hval]
      exact swapRemove_coe player.Hand ci hci
  · intro hgt
    simp only [applyOp, List.get?_eq_getElem?, hgp, hf, if_pos hgt]
    constructor <;> trivial

/-- Witness for C5, at the spec's own example: deck `[A,B,C]` (ids 0,1,2;
2 on top), hand `[3]`, `cards_from_top = 1` gives deck `[0,1,3,2]`; and
`cards_from_top = 4 > 3` gives `INVALID_DATA` with no mutation. -/
theorem C5_witness :
    ((applyOp ⟨["A", "B", "C", "D"], [0, 1, 2], [⟨1, "P", [3]⟩], 1⟩
        (.putback 0 3 0 1 0)).2.1 = .ok ∧
      (applyOp ⟨["A", "B", "C", "D"], [0, 1, 2], [⟨1, "P", [3]⟩], 1⟩
        (.putback 0 3 0 1 0)).1.Deck = [0, 1, 3, 2]) ∧
    ((applyOp ⟨["A", "B", "C", "D"], [0, 1, 2], [⟨1, "P", [3]⟩], 1⟩
        (.putback 0 3 0 4 0)).2.1 = .err ERROR_INVALID_DATA ∧
      (applyOp ⟨["A", "B", "C", "D"], [0, 1, 2], [⟨1, "P", [3]⟩], 1⟩
        (.putback 0 3 0 4 0)).1 = ⟨["A", "B", "C", "D"], [0, 1, 2], [⟨1, "P", [3]⟩], 1⟩) := by
  constructor
  · have h := (C5_putback ⟨["A", "B", "C", "D"], [0, 1, 2], [⟨1, "P", [3]⟩], 1⟩
      0 3 0 1 0 0 ⟨1, "P", [3]⟩ (by decide) (by decide) (by decide)).1 (by decide)
    exact ⟨h.1, by rw [h.2.1]; decide⟩
  · exact (C5_putback ⟨["A", "B", "C", "D"], [0, 1, 2], [⟨1, "P", [3]⟩], 1⟩
      0 3 0 4 0 0 ⟨1, "P", [3]⟩ (by decide) (by decide) (by decide)).2 (by decide)

/-- C6: the `CMD_CARD_DRAW` handler.  Exactly `min n |deck|` cards leave
the top of the deck (the remaining deck is the untouched prefix) and are
appended to the caller's hand in top-first order — the drawn list's `i`-th
element is the deck's `|deck|-1-i`-th, so the previous top is handed
first.  For `n = 0` nothing moves and the handler still emits its
notifications with an empty card list (public redacted broadcast plus the
source notification). -/
theorem C6_draw (g : Game) (pIdx n : Nat) (faceUp : Bool) (deckId : Nat) (player : Player)
    (hgp : g.Players[pIdx]? = some player) :
    (applyOp g (.draw pIdx n faceUp deckId)).2.1 = .ok ∧
    (applyOp g (.draw pIdx n faceUp deckId)).1.Deck =
      g.Deck.take (g.Deck.length - min n g.Deck.length) ∧
    ((applyOp g (.draw pIdx n faceUp deckId)).1.Players.getD pIdx default).Hand =
      player.Hand ++ (g.Deck.drop (g.Deck.length - min n g.Deck.length)).reverse ∧
    ((g.Deck.drop (g.Deck.length - min n g.Deck.length)).reverse).length =
      min n g.Deck.length ∧
    (∀ i, i < min n g.Deck.length →
      ((g.Deck.drop (g.Deck.length - min n g.Deck.length)).reverse).getD i 0 =
        g.Deck.getD (g.Deck.length - 1 - i) 0) ∧
    (n = 0 → (applyOp g (.draw pIdx n faceUp deckId)).2.2 =
      broadcastMsgs (applyOp g (.draw pIdx n faceUp deckId)).1.Players
        ⟨player.Id, CMD_CARD_DRAW, deckId, PLAYER_ID_NONE, []⟩ ++
      sendToPlayerMsgs (applyOp g (.draw pIdx n faceUp deckId)).1.Players
        ⟨player.Id, CMD_CARD_DRAW, deckId, player.Id, []⟩ player.Id) := by
  obtain ⟨hlt, hpv⟩ := get?_some_facts g.Players pIdx player hgp
  have hmin : min n g.Deck.length ≤ g.Deck.length := Nat.min_le_right _ _
  refine ⟨?_, ?_, ?_, ?_, ?_, ?_⟩
  · simp only [applyOp, List.get?_eq_getElem?, hgp]
  · simp only [applyOp, List.get?_eq_getElem?, hgp]
  · simp only [applyOp, List.get?_eq_getElem?, hgp]
    have hupd := updatePlayerHand_getD_self g.Players pIdx
      (fun hd => hd ++ (g.Deck.drop (g.Deck.length - min n g.Deck.length)).reverse) hlt
    rw [hpv] at hupd
    rw [hupd]
  · rw [List.length_reverse, List.length_drop]
    omega
  · intro i hi
    have hlen : (g.Deck.drop (g.Deck.length - min n g.Deck.length)).length =
        min n g.Deck.length := by
      rw [List.length_drop]; omega
    have hi' : i < ((g.Deck.drop (g.Deck.length - min n g.Deck.length)).reverse).length := by
      rw [List.length_reverse, hlen]; exact hi
    rw [List.getD_eq_getElem _ _ hi', List.getElem_reverse]
    have hj : (g.Deck.drop (g.Deck.length - min n g.Deck.length)).length - 1 - i <
        (g.Deck.drop (g.Deck.length - min n g.Deck.length)).length := by
      rw [hlen]; omega
    rw [List.getElem_drop]
    have hidx : g.Deck.length - 1 - i < g.Deck.length := by omega
    rw [List.getD_eq_getElem _ _ hidx]
    congr 1
    rw [hlen]
    omega
  · intro hn
    subst hn
    simp only [applyOp, List.get?_eq_getElem?, hgp, Nat.zero_min, Nat.sub_zero,
      List.drop_length, List.reverse_nil, List.append_nil, makeFilledIdSlice,
      List.length_nil, List.replicate_zero, ite_self]

/-- Witness for C6: drawing 2 from the deck `[5,6,7]` hands over `[7,6]`
(top first) and leaves `[5]`; drawing 0 still emits the empty-list
notifications. -/
theorem C6_witness :
    ((applyOp ⟨["x"], [5, 6, 7], [⟨1, "P", []⟩], 1⟩ (.draw 0 2 true 0)).2.1 = .ok ∧
      ((applyOp ⟨["x"], [5, 6, 7], [⟨1, "P", []⟩], 1⟩
        (.draw 0 2 true 0)).1.Players.getD 0 default).Hand = [7, 6] ∧
      (applyOp ⟨["x"], [5, 6, 7], [⟨1, "P", []⟩], 1⟩ (.draw 0 2 true 0)).1.Deck = [5]) ∧
    (applyOp ⟨["x"], [5, 6, 7], [⟨1, "P", []⟩], 1⟩ (.draw 0 0 true 0)).2.2 =
      [(1, ⟨1, CMD_CARD_DRAW, 0, 1, []⟩)] := by
  constructor
  · have h := C6_draw ⟨["x"], [5, 6, 7], [⟨1, "P", []⟩], 1⟩ 0 2 true 0 ⟨1, "P", []⟩ (by decide)
    exact ⟨h.1, by rw [h.2.2.1]; decide, by rw [h.2.1]; decide⟩
  · have h := C6_draw ⟨["x"], [5, 6, 7], [⟨1, "P", []⟩], 1⟩ 0 0 true 0 ⟨1, "P", []⟩ (by decide)
    rw [h.2.2.2.2.2 rfl]
    decide

/-! ## The codec (serialisation.go, protocol.go)

Bytes are `Nat` (< 256 on the wire); Go strings are carried as their
UTF-8 byte lists.  Writing follows each `Serialise...Command` routine in
write mode (every multi-byte integer little-endian, counts narrowed to
`uint16` by `% 2^16`); reading follows the same routine in read mode,
with `SerialisationContext.ensureBufferSize`'s behaviour on a short
buffer — it sets `ErrInvalidLength` and then panics — modelled as the
`panicked` error, and `complete()`'s unconsumed-bytes check modelled in
`mkDecode`. -/

inductive SerErr where
  | invalidLength
  | invalidData
  | panicked
  deriving Repr, DecidableEq

def writeU8 (v : Nat) : List Nat := [v % 256]

def writeU16 (v : Nat) : List Nat := [v % 256, v / 256 % 256]

def writeU64 (v : Nat) : List Nat :=
  [v % 256, v / 256 % 256, v / 65536 % 256, v / 16777216 % 256,
   v / 4294967296 % 256, v / 1099511627776 % 256,
   v / 281474976710656 % 256, v / 72057594037927936 % 256]

def writeBool (b : Bool) : List Nat := [if b then 1 else 0]

def writeByteSlice (s : List Nat) : List Nat := writeU16 s.length ++ s

def writeU16Slice (s : List Nat) : List Nat := writeU16 s.length ++ s.flatMap writeU16

def writeU64Slice (s : List Nat) : List Nat := writeU16 s.length ++ s.flatMap writeU64

def writeStringSlice (s : List (List Nat)) : List Nat :=
  writeU16 s.length ++ s.flatMap writeByteSlice

def writeU16SliceSlice (s : List (List Nat)) : List Nat :=
  writeU16 s.length ++ s.flatMap writeU16Slice

def readU8 : List Nat → Except SerErr (Nat × List Nat)
  | b :: r => .ok (b, r)
  | _ => .error .panicked

def readU16 : List Nat → Except SerErr (Nat × List Nat)
  | b0 :: b1 :: r => .ok (b0 + 256 * b1, r)
  | _ => .error .panicked

def readU64 : List Nat → Except SerErr (Nat × List Nat)
  | b0 :: b1 :: b2 :: b3 :: b4 :: b5 :: b6 :: b7 :: r =>
    .ok (b0 + 256 * b1 + 65536 * b2 + 16777216 * b3 + 4294967296 * b4 +
      1099511627776 * b5 + 281474976710656 * b6 + 72057594037927936 * b7, r)
  | _ => .error .panicked

def readBool : List Nat → Except SerErr (Bool × List Nat)
  | b :: r => .ok (b != 0, r)
  | _ => .error .panicked

def readBytesN (n : Nat) (buf : List Nat) : Except SerErr (List Nat × List Nat) :=
  if n ≤ buf.length then .ok (buf.take n, buf.drop n) else .error .panicked

def readByteSlice (buf : List Nat) : Except SerErr (List Nat × List Nat) :=
  match readU16 buf with
  | .error e => .error e
  | .ok (n, r) => readBytesN n r

def readN (rd : List Nat → Except SerErr (α × List Nat)) :
    Nat → List Nat → Except SerErr (List α × List Nat)
  | 0, buf => .ok ([], buf)
  | n + 1, buf =>
    match rd buf with
    | .error e => .error e
    | .ok (x, r) =>
      match readN rd n r with
      | .error e => .error e
      | .ok (xs, r') => .ok (x :: xs, r')

def readU16Slice (buf : List Nat) : Except SerErr (List Nat × List Nat) :=
  match readU16 buf with
  | .error e => .error e
  | .ok (n, r) => readN readU16 n r

def readU64Slice (buf : List Nat) : Except SerErr (List Nat × List Nat) :=
  match readU16 buf with
  | .error e => .error e
  | .ok (n, r) => readN readU64 n r

def readStringSlice (buf : List Nat) : Except SerErr (List (List Nat) × List Nat) :=
  match readU16 buf with
  | .error e => .error e
  | .ok (n, r) => readN readByteSlice n r

def readU16SliceSlice (buf : List Nat) : Except SerErr (List (List Nat) × List Nat) :=
  match readU16 buf with
  | .error e => .error e
  | .ok (n, r) => readN readU16Slice n r

/-- `SerialisationContext.complete` at the end of each read: any
unconsumed bytes in the frame fail with `ErrInvalidLength`. -/
def mkDecode (parse : List Nat → Except SerErr (α × List Nat)) (buf : List Nat) :
    Except SerErr α :=
  match parse buf with
  | .error e => .error e
  | .ok (v, []) => .ok v
  | .ok (_, _ :: _) => .error .invalidLength

/-! ### The registered command payloads (protocol.go) -/

structure HandshakeCommand where
  magicNumber : Nat
  protocolId : Nat
  localName : List Nat
  deriving Repr, DecidableEq

structure HandshakeResponseCommand where
  playerId : Nat
  deriving Repr, DecidableEq

structure PlayerInfoResponseCommand where
  ids : List Nat
  names : List (List Nat)
  handSizes : List Nat
  deriving Repr, DecidableEq

structure DeckInfoResponseCommand where
  ids : List Nat
  cardCounts : List Nat
  deriving Repr, DecidableEq

structure CardInfoResponseCommand where
  ids : List Nat
  deriving Repr, DecidableEq

structure CardDrawCommand where
  deckId : Nat
  count : Nat
  faceUp : Bool
  deriving Repr, DecidableEq

structure CardShowCommand where
  cardId : Nat
  playerId : Nat
  deriving Repr, DecidableEq

structure CardPutbackCommand where
  cardId : Nat
  deckId : Nat
  cardsFromTop : Nat
  deriving Repr, DecidableEq

structure CardDiscardCommand where
  cardId : Nat
  faceUp : Bool
  deriving Repr, DecidableEq

structure CardGiveCommand where
  cardId : Nat
  playerId : Nat
  faceUp : Bool
  deriving Repr, DecidableEq

structure DeckPeekCommand where
  deckId : Nat
  count : Nat
  publicFlag : Bool
  deriving Repr, DecidableEq

structure DeckShuffleCommand where
  deckId : Nat
  deriving Repr, DecidableEq

structure GameCreateCommand where
  specData : List Nat
  deriving Repr, DecidableEq

structure GameJoinCommand where
  gameId : Nat
  deriving Repr, DecidableEq

structure NotifyPlayerActionCommand where
  playerId : Nat
  cmdId : Nat
  targetDeckId : Nat
  targetPlayerId : Nat
  targetCardIds : List Nat
  deriving Repr, DecidableEq

structure NotifyGameJoinedCommand where
  gameId : Nat
  specData : List Nat
  playerIds : List Nat
  playerNames : List (List Nat)
  playerHands : List (List Nat)
  deckSize : Nat
  deriving Repr, DecidableEq

structure NotifyInputErrorCommand where
  cmdId : Nat
  errorId : Nat
  deriving Repr, DecidableEq

/-! ### Per-command encoders and parsers, one per `Serialise...Command` -/

def encHandshake (c : HandshakeCommand) : List Nat :=
  writeU16 c.magicNumber ++ writeU16 c.protocolId ++ writeByteSlice c.localName

def parseHandshake (b : List Nat) : Except SerErr (HandshakeCommand × List Nat) :=
  match readU16 b with
  | .error e => .error e
  | .ok (m, b) =>
    match readU16 b with
    | .error e => .error e
    | .ok (p, b) =>
      match readByteSlice b with
      | .error e => .error e
      | .ok (n, b) => .ok (⟨m, p, n⟩, b)

def encHandshakeResponse (c : HandshakeResponseCommand) : List Nat :=
  writeU64 c.playerId

def parseHandshakeResponse (b : List Nat) :
    Except SerErr (HandshakeResponseCommand × List Nat) :=
  match readU64 b with
  | .error e => .error e
  | .ok (v, b) => .ok (⟨v⟩, b)

def encPlayerInfoResponse (c : PlayerInfoResponseCommand) : List Nat :=
  writeU64Slice c.ids ++ writeStringSlice c.names ++ writeU16Slice c.handSizes

/-- Includes the two `ctx.assert` length checks of
`SerialisePlayerInfoResponseCommand`, which fail with `ErrInvalidData`. -/
def parsePlayerInfoResponse (b : List Nat) :
    Except SerErr (PlayerInfoResponseCommand × List Nat) :=
  match readU64Slice b with
  | .error e => .error e
  | .ok (ids, b) =>
    match readStringSlice b with
    | .error e => .error e
    | .ok (names, b) =>
      match readU16Slice b with
      | .error e => .error e
      | .ok (hs, b) =>
        if ids.length = names.length ∧ ids.length = hs.length then .ok (⟨ids, names, hs⟩, b)
        else .error .invalidData

def encDeckInfoResponse (c : DeckInfoResponseCommand) : List Nat :=
  writeU16Slice c.ids ++ writeU16Slice c.cardCounts

def parseDeckInfoResponse (b : List Nat) :
    Except SerErr (DeckInfoResponseCommand × List Nat) :=
  match readU16Slice b with
  | .error e => .error e
  | .ok (ids, b) =>
    match readU16Slice b with
    | .error e => .error e
    | .ok (cc, b) => .ok (⟨ids, cc⟩, b)

def encCardInfoResponse (c : CardInfoResponseCommand) : List Nat :=
  writeU16Slice c.ids

def parseCardInfoResponse (b : List Nat) :
    Except SerErr (CardInfoResponseCommand × List Nat) :=
  match readU16Slice b with
  | .error e => .error e
  | .ok (ids, b) => .ok (⟨ids⟩, b)

def encCardDraw (c : CardDrawCommand) : List Nat :=
  writeU16 c.deckId ++ writeU16 c.count ++ writeBool c.faceUp

def parseCardDraw (b : List Nat) : Except SerErr (CardDrawCommand × List Nat) :=
  match readU16 b with
  | .error e => .error e
  | .ok (d, b) =>
    match readU16 b with
    | .error e => .error e
    | .ok (n, b) =>
      match readBool b with
      | .error e => .error e
      | .ok (f, b) => .ok (⟨d, n, f⟩, b)

def encCardShow (c : CardShowCommand) : List Nat :=
  writeU16 c.cardId ++ writeU64 c.playerId

def parseCardShow (b : List Nat) : Except SerErr (CardShowCommand × List Nat) :=
  match readU16 b with
  | .error e => .error e
  | .ok (cid, b) =>
    match readU64 b with
    | .error e => .error e
    | .ok (pid, b) => .ok (⟨cid, pid⟩, b)

def encCardPutback (c : CardPutbackCommand) : List Nat :=
  writeU16 c.cardId ++ writeU16 c.deckId ++ writeU16 c.cardsFromTop

def parseCardPutback (b : List Nat) : Except SerErr (CardPutbackCommand × List Nat) :=
  match readU16 b with
  | .error e => .error e
  | .ok (cid, b) =>
    match readU16 b with
    | .error e => .error e
    | .ok (d, b) =>
      match readU16 b with
      | .error e => .error e
      | .ok (cft, b) => .ok (⟨cid, d, cft⟩, b)

def encCardDiscard (c : CardDiscardCommand) : List Nat :=
  writeU16 c.cardId ++ writeBool c.faceUp

def parseCardDiscard (b : List Nat) : Except SerErr (CardDiscardCommand × List Nat) :=
  match readU16 b with
  | .error e => .error e
  | .ok (cid, b) =>
    match readBool b with
    | .error e => .error e
    | .ok (f, b) => .ok (⟨cid, f⟩, b)

def encCardGive (c : CardGiveCommand) : List Nat :=
  writeU16 c.cardId ++ writeU64 c.playerId ++ writeBool c.faceUp

def parseCardGive (b : List Nat) : Except SerErr (CardGiveCommand × List Nat) :=
  match readU16 b with
  | .error e => .error e
  | .ok (cid, b) =>
    match readU64 b with
    | .error e => .error e
    | .ok (pid, b) =>
      match readBool b with
      | .error e => .error e
      | .ok (f, b) => .ok (⟨cid, pid, f⟩, b)

def encDeckPeek (c : DeckPeekCommand) : List Nat :=
  writeU16 c.deckId ++ writeU16 c.count ++ writeBool c.publicFlag

def parseDeckPeek (b : List Nat) : Except SerErr (DeckPeekCommand × List Nat) :=
  match readU16 b with
  | .error e => .error e
  | .ok (d, b) =>
    match readU16 b with
    | .error e => .error e
    | .ok (n, b) =>
      match readBool b with
      | .error e => .error e
      | .ok (f, b) => .ok (⟨d, n, f⟩, b)

def encDeckShuffle (c : DeckShuffleCommand) : List Nat :=
  writeU16 c.deckId

def parseDeckShuffle (b : List Nat) : Except SerErr (DeckShuffleCommand × List Nat) :=
  match readU16 b with
  | .error e => .error e
  | .ok (d, b) => .ok (⟨d⟩, b)

def encGameCreate (c : GameCreateCommand) : List Nat :=
  writeByteSlice c.specData

def parseGameCreate (b : List Nat) : Except SerErr (GameCreateCommand × List Nat) :=
  match readByteSlice b with
  | .error e => .error e
  | .ok (s, b) => .ok (⟨s⟩, b)

def encGameJoin (c : GameJoinCommand) : List Nat :=
  writeU64 c.gameId

def parseGameJoin (b : List Nat) : Except SerErr (GameJoinCommand × List Nat) :=
  match readU64 b with
  | .error e => .error e
  | .ok (v, b) => .ok (⟨v⟩, b)

def encNotifyPlayerAction (c : NotifyPlayerActionCommand) : List Nat :=
  writeU64 c.playerId ++ writeU8 c.cmdId ++ writeU16 c.targetDeckId ++
  writeU64 c.targetPlayerId ++ writeU16Slice c.targetCardIds

def parseNotifyPlayerAction (b : List Nat) :
    Except SerErr (NotifyPlayerActionCommand × List Nat) :=
  match readU64 b with
  | .error e => .error e
  | .ok (pid, b) =>
    match readU8 b with
    | .error e => .error e
    | .ok (cmd, b) =>
      match readU16 b with
      | .error e => .error e
      | .ok (d, b) =>
        match readU64 b with
        | .error e => .error e
        | .ok (tpid, b) =>
          match readU16Slice b with
          | .error e => .error e
          | .ok (cards, b) => .ok (⟨pid, cmd, d, tpid, cards⟩, b)

def encNotifyGameJoined (c : NotifyGameJoinedCommand) : List Nat :=
  writeU64 c.gameId ++ writeByteSlice c.specData ++ writeU64Slice c.playerIds ++
  writeStringSlice c.playerNames ++ writeU16SliceSlice c.playerHands ++ writeU16 c.deckSize

def parseNotifyGameJoined (b : List Nat) :
    Except SerErr (NotifyGameJoinedCommand × List Nat) :=
  match readU64 b with
  | .error e => .error e
  | .ok (gid, b) =>
    match readByteSlice b with
    | .error e => .error e
    | .ok (sd, b) =>
      match readU64Slice b with
      | .error e => .error e
      | .ok (pids, b) =>
        match readStringSlice b with
        | .error e => .error e
        | .ok (pnames, b) =>
          match readU16SliceSlice b with
          | .error e => .error e
          | .ok (hands, b) =>
            match readU16 b with
            | .error e => .error e
            | .ok (ds, b) => .ok (⟨gid, sd, pids, pnames, hands, ds⟩, b)

def encNotifyInputError (c : NotifyInputErrorCommand) : List Nat :=
  writeU8 c.cmdId ++ writeU8 c.errorId

def parseNotifyInputError (b : List Nat) :
    Except SerErr (NotifyInputErrorCommand × List Nat) :=
  match readU8 b with
  | .error e => .error e
  | .ok (cid, b) =>
    match readU8 b with
    | .error e => .error e
    | .ok (eid, b) => .ok (⟨cid, eid⟩, b)

/-! ### Well-formedness: the Go field types (uint8/uint16/uint64 ranges,
slice lengths representable in the u16 count prefix) -/

def wfHandshake (c : HandshakeCommand) : Prop :=
  c.magicNumber < 65536 ∧ c.protocolId < 65536 ∧ c.localName.length < 65536

def wfHandshakeResponse (c : HandshakeResponseCommand) : Prop :=
  c.playerId < 2 ^ 64

def wfPlayerInfoResponse (c : PlayerInfoResponseCommand) : Prop :=
  c.ids.length < 65536 ∧ (∀ x ∈ c.ids, x < 2 ^ 64) ∧
  c.names.length < 65536 ∧ (∀ s ∈ c.names, s.length < 65536) ∧
  c.handSizes.length < 65536 ∧ (∀ x ∈ c.handSizes, x < 65536) ∧
  c.ids.length = c.names.length ∧ c.ids.length = c.handSizes.length

def wfDeckInfoResponse (c : DeckInfoResponseCommand) : Prop :=
  c.ids.length < 65536 ∧ (∀ x ∈ c.ids, x < 65536) ∧
  c.cardCounts.length < 65536 ∧ (∀ x ∈ c.cardCounts, x < 65536)

def wfCardInfoResponse (c : CardInfoResponseCommand) : Prop :=
  c.ids.length < 65536 ∧ (∀ x ∈ c.ids, x < 65536)

def wfCardDraw (c : CardDrawCommand) : Prop :=
  c.deckId < 65536 ∧ c.count < 65536

def wfCardShow (c : CardShowCommand) : Prop :=
  c.cardId < 65536 ∧ c.playerId < 2 ^ 64

def wfCardPutback (c : CardPutbackCommand) : Prop :=
  c.cardId < 65536 ∧ c.deckId < 65536 ∧ c.cardsFromTop < 65536

def wfCardDiscard (c : CardDiscardCommand) : Prop :=
  c.cardId < 65536

def wfCardGive (c : CardGiveCommand) : Prop :=
  c.cardId < 65536 ∧ c.playerId < 2 ^ 64

def wfDeckPeek (c : DeckPeekCommand) : Prop :=
  c.deckId < 65536 ∧ c.count < 65536

def wfDeckShuffle (c : DeckShuffleCommand) : Prop :=
  c.deckId < 65536

def wfGameCreate (c : GameCreateCommand) : Prop :=
  c.specData.length < 65536

def wfGameJoin (c : GameJoinCommand) : Prop :=
  c.gameId < 2 ^ 64

def wfNotifyPlayerAction (c : NotifyPlayerActionCommand) : Prop :=
  c.playerId < 2 ^ 64 ∧ c.cmdId < 256 ∧ c.targetDeckId < 65536 ∧
  c.targetPlayerId < 2 ^ 64 ∧
  c.targetCardIds.length < 65536 ∧ (∀ x ∈ c.targetCardIds, x < 65536)

def wfNotifyGameJoined (c : NotifyGameJoinedCommand) : Prop :=
  c.gameId < 2 ^ 64 ∧ c.specData.length < 65536 ∧
  c.playerIds.length < 65536 ∧ (∀ x ∈ c.playerIds, x < 2 ^ 64) ∧
  c.playerNames.length < 65536 ∧ (∀ s ∈ c.playerNames, s.length < 65536) ∧
  c.playerHands.length < 65536 ∧
  (∀ hd ∈ c.playerHands, hd.length < 65536 ∧ ∀ x ∈ hd, x < 65536) ∧
  c.deckSize < 65536

def wfNotifyInputError (c : NotifyInputErrorCommand) : Prop :=
  c.cmdId < 256 ∧ c.errorId < 256

/-! ### Round-trip lemmas for the codec primitives -/

theorem readU8_write (v : Nat) (r : List Nat) (h : v < 256) :
    readU8 (writeU8 v ++ r) = .ok (v, r) := by
  simp [readU8, writeU8, Nat.mod_eq_of_lt h]

theorem readU16_write (v : Nat) (r : List Nat) (h : v < 65536) :
    readU16 (writeU16 v ++ r) = .ok (v, r) := by
  simp only [writeU16, List.cons_append, List.nil_append, readU16]
  have hv : v % 256 + 256 * (v / 256 % 256) = v := by omega
  rw [hv]

theorem readU64_write (v : Nat) (r : List Nat) (h : v < 2 ^ 64) :
    readU64 (writeU64 v ++ r) = .ok (v, r) := by
  simp only [writeU64, List.cons_append, List.nil_append, readU64]
  have hv : v % 256 + 256 * (v / 256 % 256) + 65536 * (v / 65536 % 256) +
      16777216 * (v / 16777216 % 256) + 4294967296 * (v / 4294967296 % 256) +
      1099511627776 * (v / 1099511627776 % 256) +
      281474976710656 * (v / 281474976710656 % 256) +
      72057594037927936 * (v / 72057594037927936 % 256) = v := by omega
  rw [hv]

theorem readBool_write (b : Bool) (r : List Nat) :
    readBool (writeBool b ++ r) = .ok (b, r) := by
  cases b <;> simp [readBool, writeBool]

theorem readBytesN_self (s r : List Nat) :
    readBytesN s.length (s ++ r) = .ok (s, r) := by
  rw [readBytesN, if_pos (by simp)]
  rw [List.take_left, List.drop_left]

theorem readByteSlice_write (s r : List Nat) (h : s.length < 65536) :
    readByteSlice (writeByteSlice s ++ r) = .ok (s, r) := by
  rw [readByteSlice, writeByteSlice, List.append_assoc, readU16_write _ _ h]
  exact readBytesN_self s r

theorem readN_flatMap (rd : List Nat → Except SerErr (α × List Nat)) (wr : α → List Nat)
    (P : α → Prop) (hok : ∀ x r, P x → rd (wr x ++ r) = .ok (x, r)) :
    ∀ (s : List α) (r : List Nat), (∀ x ∈ s, P x) →
      readN rd s.length (s.flatMap wr ++ r) = .ok (s, r) := by
  intro s
  induction s with
  | nil => intro r _; simp [readN]
  | cons x xs ih =>
    intro r hall
    rw [List.length_cons, List.flatMap_cons, List.append_assoc, readN,
      hok x _ (hall x (List.mem_cons_self x xs))]
    simp only []
    rw [ih r (fun y hy => hall y (List.mem_cons_of_mem x hy))]

theorem readU16Slice_write (s : List Nat) (r : List Nat) (hl : s.length < 65536)
    (hall : ∀ x ∈ s, x < 65536) : readU16Slice (writeU16Slice s ++ r) = .ok (s, r) := by
  rw [readU16Slice, writeU16Slice, List.append_assoc, readU16_write _ _ hl]
  exact readN_flatMap readU16 writeU16 (fun x => x < 65536) readU16_write s r hall

theorem readU64Slice_write (s : List Nat) (r : List Nat) (hl : s.length < 65536)
    (hall : ∀ x ∈ s, x < 2 ^ 64) : readU64Slice (writeU64Slice s ++ r) = .ok (s, r) := by
  rw [readU64Slice, writeU64Slice, List.append_assoc, readU16_write _ _ hl]
  exact readN_flatMap readU64 writeU64 (fun x => x < 2 ^ 64) readU64_write s r hall

theorem readStringSlice_write (s : List (List Nat)) (r : List Nat) (hl : s.length < 65536)
    (hall : ∀ x ∈ s, x.length < 65536) :
    readStringSlice (writeStringSlice s ++ r) = .ok (s, r) := by
  rw [readStringSlice, writeStringSlice, List.append_assoc, readU16_write _ _ hl]
  exact readN_flatMap readByteSlice writeByteSlice (fun x => x.length < 65536)
    readByteSlice_write s r hall

theorem readU16SliceSlice_write (s : List (List Nat)) (r : List Nat) (hl : s.length < 65536)
    (hall : ∀ x ∈ s, x.length < 65536 ∧ ∀ y ∈ x, y < 65536) :
    readU16SliceSlice (writeU16SliceSlice s ++ r) = .ok (s, r) := by
  rw [readU16SliceSlice, writeU16SliceSlice, List.append_assoc, readU16_write _ _ hl]
  exact readN_flatMap readU16Slice writeU16Slice
    (fun x => x.length < 65536 ∧ ∀ y ∈ x, y < 65536)
    (fun x r hx => readU16Slice_write x r hx.1 hx.2) s r hall

/-- The payload parser consumes exactly the bytes its encoder produced and
reconstructs the encoded value, whatever follows in the buffer. -/
def RoundTrips (enc : α → List Nat) (parse : List Nat → Except SerErr (α × List Nat))
    (wf : α → Prop) : Prop :=
  ∀ v r, wf v → parse (enc v ++ r) = .ok (v, r)

/-- The decode-level codec contract for one command: decoding an encoded
value yields the value back, and any trailing junk after the encoded bytes
fails the decode with `InvalidLength`. -/
def CodecOk (enc : α → List Nat) (parse : List Nat → Except SerErr (α × List Nat))
    (wf : α → Prop) : Prop :=
  (∀ v, wf v → mkDecode parse (enc v) = .ok v) ∧
  (∀ v junk, wf v → junk ≠ [] → mkDecode parse (enc v ++ junk) = .error .invalidLength)

theorem codecOk_of_roundTrips {enc : α → List Nat}
    {parse : List Nat → Except SerErr (α × List Nat)} {wf : α → Prop}
    (h : RoundTrips enc parse wf) : CodecOk enc parse wf := by
  constructor
  · intro v hv
    have hp := h v [] hv
    rw [List.append_nil] at hp
    rw [mkDecode, hp]
  · intro v junk hv hj
    have hp := h v junk hv
    cases junk with
    | nil => exact absurd rfl hj
    | cons a as => rw [mkDecode, hp]

theorem parseHandshake_enc : RoundTrips encHandshake parseHandshake wfHandshake := by
  intro c r h
  obtain ⟨h1, h2, h3⟩ := h
  simp only [encHandshake, parseHandshake, List.append_assoc,
    readU16_write _ _ h1, readU16_write _ _ h2, readByteSlice_write _ _ h3]

theorem parseHandshakeResponse_enc :
    RoundTrips encHandshakeResponse parseHandshakeResponse wfHandshakeResponse := by
  intro c r h
  simp only [encHandshakeResponse, parseHandshakeResponse, readU64_write _ _ h]

theorem parsePlayerInfoResponse_enc :
    RoundTrips encPlayerInfoResponse parsePlayerInfoResponse wfPlayerInfoResponse := by
  intro c r h
  obtain ⟨h1, h2, h3, h4, h5, h6, h7, h8⟩ := h
  simp only [encPlayerInfoResponse, parsePlayerInfoResponse, List.append_assoc,
    readU64Slice_write _ _ h1 h2, readStringSlice_write _ _ h3 h4,
    readU16Slice_write _ _ h5 h6]
  rw [if_pos ⟨h7, h8⟩]

theorem parseDeckInfoResponse_enc :
    RoundTrips encDeckInfoResponse parseDeckInfoResponse wfDeckInfoResponse := by
  intro c r h
  obtain ⟨h1, h2, h3, h4⟩ := h
  simp only [encDeckInfoResponse, parseDeckInfoResponse, List.append_assoc,
    readU16Slice_write _ _ h1 h2, readU16Slice_write _ _ h3 h4]

theorem parseCardInfoResponse_enc :
    RoundTrips encCardInfoResponse parseCardInfoResponse wfCardInfoResponse := by
  intro c r h
  obtain ⟨h1, h2⟩ := h
  simp only [encCardInfoResponse, parseCardInfoResponse, readU16Slice_write _ _ h1 h2]

theorem parseCardDraw_enc : RoundTrips encCardDraw parseCardDraw wfCardDraw := by
  intro c r h
  obtain ⟨h1, h2⟩ := h
  simp only [encCardDraw, parseCardDraw, List.append_assoc,
    readU16_write _ _ h1, readU16_write _ _ h2, readBool_write]

theorem parseCardShow_enc : RoundTrips encCardShow parseCardShow wfCardShow := by
  intro c r h
  obtain ⟨h1, h2⟩ := h
  simp only [encCardShow, parseCardShow, List.append_assoc,
    readU16_write _ _ h1, readU64_write _ _ h2]

theorem parseCardPutback_enc : RoundTrips encCardPutback parseCardPutback wfCardPutback := by
  intro c r h
  obtain ⟨h1, h2, h3⟩ := h
  simp only [encCardPutback, parseCardPutback, List.append_assoc,
    readU16_write _ _ h1, readU16_write _ _ h2, readU16_write _ _ h3]

theorem parseCardDiscard_enc : RoundTrips encCardDiscard parseCardDiscard wfCardDiscard := by
  intro c r h
  simp only [encCardDiscard, parseCardDiscard, List.append_assoc,
    readU16_write _ _ h, readBool_write]

theorem parseCardGive_enc : RoundTrips encCardGive parseCardGive wfCardGive := by
  intro c r h
  obtain ⟨h1, h2⟩ := h
  simp only [encCardGive, parseCardGive, List.append_assoc,
    readU16_write _ _ h1, readU64_write _ _ h2, readBool_write]

theorem parseDeckPeek_enc : RoundTrips encDeckPeek parseDeckPeek wfDeckPeek := by
  intro c r h
  obtain ⟨h1, h2⟩ := h
  simp only [encDeckPeek, parseDeckPeek, List.append_assoc,
    readU16_write _ _ h1, readU16_write _ _ h2, readBool_write]

theorem parseDeckShuffle_enc : RoundTrips encDeckShuffle parseDeckShuffle wfDeckShuffle := by
  intro c r h
  simp only [encDeckShuffle, parseDeckShuffle, readU16_write _ _ h]

theorem parseGameCreate_enc : RoundTrips encGameCreate parseGameCreate wfGameCreate := by
  intro c r h
  simp only [encGameCreate, parseGameCreate, readByteSlice_write _ _ h]

theorem parseGameJoin_enc : RoundTrips encGameJoin parseGameJoin wfGameJoin := by
  intro c r h
  simp only [encGameJoin, parseGameJoin, readU64_write _ _ h]

theorem parseNotifyPlayerAction_enc :
    RoundTrips encNotifyPlayerAction parseNotifyPlayerAction wfNotifyPlayerAction := by
  intro c r h
  obtain ⟨h1, h2, h3, h4, h5, h6⟩ := h
  simp only [encNotifyPlayerAction, parseNotifyPlayerAction, List.append_assoc,
    readU64_write _ _ h1, readU8_write _ _ h2, readU16_write _ _ h3,
    readU64_write _ _ h4, readU16Slice_write _ _ h5 h6]

theorem parseNotifyGameJoined_enc :
    RoundTrips encNotifyGameJoined parseNotifyGameJoined wfNotifyGameJoined := by
  intro c r h
  obtain ⟨h1, h2, h3, h4, h5, h6, h7, h8, h9⟩ := h
  simp only [encNotifyGameJoined, parseNotifyGameJoined, List.append_assoc,
    readU64_write _ _ h1, readByteSlice_write _ _ h2, readU64Slice_write _ _ h3 h4,
    readStringSlice_write _ _ h5 h6, readU16SliceSlice_write _ _ h7 h8,
    readU16_write _ _ h9]

theorem parseNotifyInputError_enc :
    RoundTrips encNotifyInputError parseNotifyInputError wfNotifyInputError := by
  intro c r h
  obtain ⟨h1, h2⟩ := h
  simp only [encNotifyInputError, parseNotifyInputError, List.append_assoc,
    readU8_write _ _ h1, readU8_write _ _ h2]

/-- C9 counterexample: the decoder is not injective on accepted byte
strings, so `encode(decode(bytes)) = bytes` fails.  A `CARD_DRAW` frame
whose `face_up` byte is 2 is accepted by the decoder (any non-zero byte
reads as true), but re-encoding the decoded value writes the canonical
byte 1, which differs from the accepted input. -/
theorem C9_counterexample :
    mkDecode parseCardDraw [0, 0, 0, 0, 2] = .ok ⟨0, 0, true⟩ ∧
    encCardDraw ⟨0, 0, true⟩ = [0, 0, 0, 0, 1] ∧
    ([0, 0, 0, 0, 1] : List Nat) ≠ [0, 0, 0, 0, 2] := by
  refine ⟨rfl, by decide, by decide⟩

/-- C9 (amended): for every registered command payload type, decoding the
bytes produced by encoding any well-formed value `v` (fields within their
Go integer ranges, slice lengths representable in the u16 count prefix)
yields `v` back, and any unconsumed bytes at the end of a frame cause the
decode to fail with `InvalidLength` rather than be silently accepted.
(The other direction, `encode(decode(bytes)) = bytes` for every accepted
byte string, is false: see the counterexample — a non-canonical bool byte
is accepted and re-encodes to 1.) -/
theorem C9_amended :
    CodecOk encHandshake parseHandshake wfHandshake ∧
    CodecOk encHandshakeResponse parseHandshakeResponse wfHandshakeResponse ∧
    CodecOk encPlayerInfoResponse parsePlayerInfoResponse wfPlayerInfoResponse ∧
    CodecOk encDeckInfoResponse parseDeckInfoResponse wfDeckInfoResponse ∧
    CodecOk encCardInfoResponse parseCardInfoResponse wfCardInfoResponse ∧
    CodecOk encCardDraw parseCardDraw wfCardDraw ∧
    CodecOk encCardShow parseCardShow wfCardShow ∧
    CodecOk encCardPutback parseCardPutback wfCardPutback ∧
    CodecOk encCardDiscard parseCardDiscard wfCardDiscard ∧
    CodecOk encCardGive parseCardGive wfCardGive ∧
    CodecOk encDeckPeek parseDeckPeek wfDeckPeek ∧
    CodecOk encDeckShuffle parseDeckShuffle wfDeckShuffle ∧
    CodecOk encGameCreate parseGameCreate wfGameCreate ∧
    CodecOk encGameJoin parseGameJoin wfGameJoin ∧
    CodecOk encNotifyPlayerAction parseNotifyPlayerAction wfNotifyPlayerAction ∧
    CodecOk encNotifyGameJoined parseNotifyGameJoined wfNotifyGameJoined ∧
    CodecOk encNotifyInputError parseNotifyInputError wfNotifyInputError :=
  ⟨codecOk_of_roundTrips parseHandshake_enc,
   codecOk_of_roundTrips parseHandshakeResponse_enc,
   codecOk_of_roundTrips parsePlayerInfoResponse_enc,
   codecOk_of_roundTrips parseDeckInfoResponse_enc,
   codecOk_of_roundTrips parseCardInfoResponse_enc,
   codecOk_of_roundTrips parseCardDraw_enc,
   codecOk_of_roundTrips parseCardShow_enc,
   codecOk_of_roundTrips parseCardPutback_enc,
   codecOk_of_roundTrips parseCardDiscard_enc,
   codecOk_of_roundTrips parseCardGive_enc,
   codecOk_of_roundTrips parseDeckPeek_enc,
   codecOk_of_roundTrips parseDeckShuffle_enc,
   codecOk_of_roundTrips parseGameCreate_enc,
   codecOk_of_roundTrips parseGameJoin_enc,
   codecOk_of_roundTrips parseNotifyPlayerAction_enc,
   codecOk_of_roundTrips parseNotifyGameJoined_enc,
   codecOk_of_roundTrips parseNotifyInputError_enc⟩

/-- Witness for C9 (amended) at concrete inputs: a `CARD_DRAW` payload
round-trips, and with one junk byte appended the decode fails with
`InvalidLength`. -/
theorem C9_witness :
    (wfCardDraw ⟨1, 2, false⟩ ∧
      mkDecode parseCardDraw (encCardDraw ⟨1, 2, false⟩) = .ok ⟨1, 2, false⟩) ∧
    mkDecode parseCardDraw (encCardDraw ⟨1, 2, false⟩ ++ [9]) = .error .invalidLength := by
  obtain ⟨_, _, _, _, _, hdraw, _⟩ := C9_amended
  exact ⟨⟨⟨by norm_num, by norm_num⟩, hdraw.1 ⟨1, 2, false⟩ ⟨by norm_num, by norm_num⟩⟩,
    hdraw.2 ⟨1, 2, false⟩ [9] ⟨by norm_num, by norm_num⟩ (by decide)⟩

/-! ## Command header validation (protocol.go) -/

def MinHandshakeCommandLength : Nat := 6
def MaxHandshakeCommandLength : Nat := 6 + MaxPlayerNameLength
def HandshakeResponseCommandLength : Nat := 8
def MinPlayerInfoResponseCommandLength : Nat := 6
def MaxPlayerInfoResponseCommandLength : Nat := 65535
def MinDeckInfoResponseCommandLength : Nat := 4
def MaxDeckInfoResponseCommandLength : Nat := 65535
def MinCardInfoResponseCommandLength : Nat := 2
def MaxCardInfoResponseCommandLength : Nat := 65535
def CardDrawCommandLength : Nat := 5
def CardShowCommandLength : Nat := 10
def CardPutbackCommandLength : Nat := 6
def CardDiscardCommandLength : Nat := 3
def CardGiveCommandLength : Nat := 11
def DeckPeekCommandLength : Nat := 5
def DeckShuffleCommandLength : Nat := 2
def MinGameCreateCommandLength : Nat := 2
def MaxGameCreateCommandLength : Nat := 65535
def GameJoinCommandLength : Nat := 8
def MinNotifyPlayerActionCommandLength : Nat := 21
def MaxNotifyPlayerActionCommandLength : Nat := 65535
def MinNotifyGameJoinedCommandLength : Nat := 18
def MaxNotifyGameJoinedCommandLength : Nat := 65535
def NotifyInputErrorCommandLength : Nat := 2

/-- `commandLengthLimits` (protocol.go): the registered `(min, max)`
payload-length bounds per command id; unregistered ids get `(0, 0)`. -/
def commandLengthLimits (id : Nat) : Nat × Nat :=
  if id = CMD_HANDSHAKE then (MinHandshakeCommandLength, MaxHandshakeCommandLength)
  else if id = CMD_HANDSHAKE_RESPONSE then
    (HandshakeResponseCommandLength, HandshakeResponseCommandLength)
  else if id = CMD_INFO_PLAYERS_RESPONSE then
    (MinPlayerInfoResponseCommandLength, MaxPlayerInfoResponseCommandLength)
  else if id = CMD_INFO_DECKS_RESPONSE then
    (MinDeckInfoResponseCommandLength, MaxDeckInfoResponseCommandLength)
  else if id = CMD_INFO_CARDS_RESPONSE then
    (MinCardInfoResponseCommandLength, MaxCardInfoResponseCommandLength)
  else if id = CMD_CARD_DRAW then (CardDrawCommandLength, CardDrawCommandLength)
  else if id = CMD_CARD_SHOW then (CardShowCommandLength, CardShowCommandLength)
  else if id = CMD_CARD_PUTBACK then (CardPutbackCommandLength, CardPutbackCommandLength)
  else if id = CMD_CARD_DISCARD then (CardDiscardCommandLength, CardDiscardCommandLength)
  else if id = CMD_CARD_GIVE then (CardGiveCommandLength, CardGiveCommandLength)
  else if id = CMD_DECK_PEEK then (DeckPeekCommandLength, DeckPeekCommandLength)
  else if id = CMD_DECK_SHUFFLE then (DeckShuffleCommandLength, DeckShuffleCommandLength)
  else if id = CMD_GAME_CREATE then (MinGameCreateCommandLength, MaxGameCreateCommandLength)
  else if id = CMD_GAME_JOIN then (GameJoinCommandLength, GameJoinCommandLength)
  else if id = CMD_NOTIFY_PLAYER_ACTION then
    (MinNotifyPlayerActionCommandLength, MaxNotifyPlayerActionCommandLength)
  else if id = CMD_NOTIFY_GAME_JOINED then
    (MinNotifyGameJoinedCommandLength, MaxNotifyGameJoinedCommandLength)
  else if id = CMD_NOTIFY_INPUT_ERROR then
    (NotifyInputErrorCommandLength, NotifyInputErrorCommandLength)
  else (0, 0)

/-- How `ValidateCommandHeader` (protocol.go) ends: accept, return
`ErrInvalidHeader` (id out of range, handled by closing the connection),
or hit the `panic("Invalid length")` on the out-of-bounds-length path
(whose intended `return ErrInvalidLength` is commented out in the
source). -/
inductive HeaderResult where
  | ok
  | errInvalidHeader
  | panicked
  deriving Repr, DecidableEq

/-- `ValidateCommandHeader` (protocol.go): reject unknown ids; then check
the payload length against the registered bounds before any payload byte
is read — but an out-of-bounds length panics instead of returning an
error. -/
def ValidateCommandHeader (id len : Nat) : HeaderResult :=
  if NUM_CMDS ≤ id then .errInvalidHeader
  else
    let lims := commandLengthLimits id
    if len < lims.1 ∨ lims.2 < len then .panicked
    else .ok

/-- C7: evaluating the header-validation and payload-deserialisation code
at the failing inputs.  A `CARD_DRAW` header with length 6 (its registered
bounds are exactly 5) is rejected before the payload is read — but by
`panic("Invalid length")`, which crashes the process, not by silently
closing the connection (the intended `return ErrInvalidLength` is
commented out in the source).  Likewise a handshake payload whose inner
byte-slice claims one more byte than the frame holds makes
`ensureBufferSize` panic (again with the error return commented out)
instead of failing the deserialisation quietly.  A well-formed length
(5) still validates. -/
theorem C7_length_violations_panic :
    ValidateCommandHeader CMD_CARD_DRAW 6 = .panicked ∧
    ValidateCommandHeader CMD_CARD_DRAW 5 = .ok ∧
    ValidateCommandHeader NUM_CMDS 0 = .errInvalidHeader ∧
    mkDecode parseHandshake [0x2F, 0x34, 1, 0, 1, 0] = .error .panicked := by
  refine ⟨by decide, by decide, by decide, rfl⟩

/-! ## Game creation (server.go ServerState.CreateNewGame,
gamestate.go CreateGameFromSpec) -/

/-- `CreateGameFromSpec` (gamestate.go): the deck is laid out in spec
order, `Deck[cardId] = uint16(cardId)` for every spec position, with an
empty member list and id 0 (assigned later by the directory). -/
def CreateGameFromSpec (spec : List String) : Game :=
  ⟨spec, (List.range spec.length).map (fun i => i % 65536), [], 0⟩

/-- `ServerState.CreateNewGame` (server.go): build the game from the spec,
shuffle the deck once with the game's freshly seeded rng (the stream
`jf`), append the creator as sole member, then assign the next game id
under the directory lock and publish the game. -/
def ServerCreateNewGame (spec : List String) (jf : Nat → Nat) (firstPlayer : Player)
    (gameId : Nat) : Game :=
  let gs := CreateGameFromSpec spec
  let gs1 := { gs with Deck := ShuffleDeck jf gs.Deck }
  let gs2 := { gs1 with Players := gs1.Players ++ [firstPlayer] }
  { gs2 with Id := gameId }

/-- The fields of the full `NOTIFY_GAME_JOINED` the `CMD_GAME_CREATE`
handler sends to the creator (server.go): the new game's id, the creator
as only listed player, the hand list hard-coded to `[][]uint16{nil}`
(one empty hand), and `deck_size = uint16(len(Deck))`.  The echoed
`spec_data` bytes are opaque and not modelled. -/
structure GameJoinedView where
  gameId : Nat
  playerIds : List Nat
  playerNames : List String
  playerHands : List (List Nat)
  deckSize : Nat
  deriving Repr, DecidableEq

def gameCreateNotify (g : Game) (p : Player) : GameJoinedView :=
  ⟨g.Id, [p.Id], [p.Name], [[]], g.Deck.length % 65536⟩

/-- C10: a game created from a spec with `n` cards first lays the deck out
as ids `0..n-1` in spec order and shuffles it exactly once with the game's
rng before the game is published: the resulting deck is the rng-determined
Fisher-Yates permutation of `0..n-1` (a permutation of `List.range n`),
the creator is the sole member, and the creator's `NOTIFY_GAME_JOINED`
reports `deck_size = n` and an empty hand. -/
theorem C10_create_game (spec : List String) (jf : Nat → Nat) (p : Player) (gid : Nat)
    (h : spec.length < 65536) :
    (ServerCreateNewGame spec jf p gid).Deck = ShuffleDeck jf (List.range spec.length) ∧
    (ServerCreateNewGame spec jf p gid).Deck.Perm (List.range spec.length) ∧
    (ServerCreateNewGame spec jf p gid).Players = [p] ∧
    gameCreateNotify (ServerCreateNewGame spec jf p gid) p =
      ⟨gid, [p.Id], [p.Name], [[]], spec.length⟩ := by
  have hmap : (List.range spec.length).map (fun i => i % 65536) = List.range spec.length := by
    conv_rhs => rw [← List.map_id (List.range spec.length)]
    apply List.map_congr_left
    intro x hx
    exact Nat.mod_eq_of_lt (lt_of_lt_of_le (List.mem_range.mp hx) (by omega))
  have hdeck : (ServerCreateNewGame spec jf p gid).Deck =
      ShuffleDeck jf (List.range spec.length) := by
    simp only [ServerCreateNewGame, CreateGameFromSpec]
    rw [hmap]
  have hperm : (ServerCreateNewGame spec jf p gid).Deck.Perm (List.range spec.length) := by
    rw [hdeck]; exact shuffleDeck_perm jf _
  have hlen : (ServerCreateNewGame spec jf p gid).Deck.length = spec.length := by
    rw [hperm.length_eq, List.length_range]
  refine ⟨hdeck, hperm, by simp [ServerCreateNewGame, CreateGameFromSpec], ?_⟩
  have hid : (ServerCreateNewGame spec jf p gid).Id = gid := rfl
  unfold gameCreateNotify
  rw [hid, hlen, Nat.mod_eq_of_lt h]

/-- Witness for C10 at a concrete input: a three-card spec with the rng
stream constantly 0 produces the Fisher-Yates result `[1, 2, 0]`, and the
creator's notification reports the full deck size and an empty hand. -/
theorem C10_witness :
    (ServerCreateNewGame ["A", "B", "C"] (fun _ => 0) ⟨7, "Ann", []⟩ 5).Deck = [1, 2, 0] ∧
    (ServerCreateNewGame ["A", "B", "C"] (fun _ => 0) ⟨7, "Ann", []⟩ 5).Deck.Perm
      (List.range 3) ∧
    gameCreateNotify (ServerCreateNewGame ["A", "B", "C"] (fun _ => 0) ⟨7, "Ann", []⟩ 5)
      ⟨7, "Ann", []⟩ = ⟨5, [7], ["Ann"], [[]], 3⟩ := by
  have h := C10_create_game ["A", "B", "C"] (fun _ => 0) ⟨7, "Ann", []⟩ 5 (by norm_num)
  refine ⟨?_, ?_, ?_⟩
  · rw [h.1]; decide
  · exact h.2.1
  · exact h.2.2.2

end Netdeck
